import Mathlib

/-!
Verification development for the honeypot-system repository.

The three logic components of the repository are shallowly embedded here:
`scam_detector.py` (ScamDetector), `intelligence_extractor.py`
(IntelligenceExtractor) and `agent_engine.py` (ScammerEngagementAgent).
Messages are modelled as lists of characters.  Python regular-expression
searches are compiled, pattern by pattern, into explicit scanning functions
over character lists that reproduce the search and findall semantics of the
concrete patterns appearing in the source (leftmost non-overlapping matches,
greedy quantifiers with backtracking, word boundaries over the ASCII word
class).  Floating-point scores are modelled exactly: detector confidence is
kept in hundredths (an integer number of centi-points), so that 0.15 becomes
15 and the clamp to 1.0 becomes a clamp to 100.  Sources of randomness
(random.choice, random.random thresholds) are modelled as explicit selector
and coin parameters.
-/

set_option maxRecDepth 4000

/-- Convert a string literal to the character-list representation used
throughout the development. -/
def cl (s : String) : List Char := s.toList

/-- Python re word class over ASCII input: letters, digits and underscore. -/
def wordChar (c : Char) : Bool := c.isAlpha || c.isDigit || c == '_'

/-- Python re whitespace class over ASCII input. -/
def spaceChar (c : Char) : Bool :=
  c == ' ' || c == '\t' || c == '\n' || c == '\x0d' || c == '\x0c' || c == '\x0b'

/-- Wordness of an optional character; the edge of the string counts as
non-word for word-boundary purposes. -/
def wordCharO : Option Char → Bool
  | none => false
  | some c => wordChar c

/-- Character at index i, if any. -/
def charAtOpt (s : List Char) (i : Nat) : Option Char := (s.drop i).head?

/-- True when the list is empty or starts with a non-word character: the
word-boundary test after a match that ends in a word character. -/
def nonWordNext (t : List Char) : Bool :=
  match t.head? with
  | none => true
  | some c => !wordChar c

/-- Python substring test (the `in` operator on str). -/
def containsSub (n : List Char) : List Char → Bool
  | [] => n.isPrefixOf []
  | c :: t => n.isPrefixOf (c :: t) || containsSub n t

/-- Lower-casing a message, as str.lower on ASCII input. -/
def lowerL (s : List Char) : List Char := s.map Char.toLower

/-- Python l[-3:] and friends: the last n elements of a list. -/
def lastN (n : Nat) (l : List α) : List α := l.drop (l.length - n)

/-- Occurrence of the literal w at index i of s with a regex word boundary on
both sides (compiled form of a \x5cb w \x5cb search at a fixed position). -/
def occB (w s : List Char) (i : Nat) : Bool :=
  match w.head?, w.getLast? with
  | some hc, some tc =>
    w.isPrefixOf (s.drop i) &&
    (wordCharO (if i = 0 then none else charAtOpt s (i - 1)) != wordChar hc) &&
    (wordChar tc != wordCharO (charAtOpt s (i + w.length)))
  | _, _ => false

/-- Occurrence of the literal w at index i of s with a word boundary only at
its end (for patterns whose first branch carries no leading boundary). -/
def occTrail (w s : List Char) (i : Nat) : Bool :=
  match w.getLast? with
  | some tc =>
    w.isPrefixOf (s.drop i) &&
    (wordChar tc != wordCharO (charAtOpt s (i + w.length)))
  | none => false

/-- No newline between positions l (inclusive) and r (exclusive): the
dot of an unflagged Python regex does not match a newline, so the gap
consumed by a dot-star must be newline free. -/
def noNl (s : List Char) (l r : Nat) : Bool :=
  ((s.drop l).take (r - l)).all (fun c => c != '\n')

/-- Search for a pattern of shape boundary-A boundary dot-star boundary-B
boundary, where A and B are alternations of literal words. -/
def searchPair (as bs : List (List Char)) (s : List Char) : Bool :=
  (List.range (s.length + 1)).any (fun i =>
    as.any (fun a =>
      occB a s i &&
      (List.range (s.length + 1)).any (fun j =>
        decide (i + a.length ≤ j) && noNl s (i + a.length) j &&
        bs.any (fun b => occB b s j))))

/-- Variant of searchPair whose first alternation carries no leading word
boundary (the phishing click/tap/visit pattern). -/
def searchPairTrail (as bs : List (List Char)) (s : List Char) : Bool :=
  (List.range (s.length + 1)).any (fun i =>
    as.any (fun a =>
      occTrail a s i &&
      (List.range (s.length + 1)).any (fun j =>
        decide (i + a.length ≤ j) && noNl s (i + a.length) j &&
        bs.any (fun b => occB b s j))))

/-- Search for a plain boundary-delimited alternation of literal words. -/
def searchAlone (as : List (List Char)) (s : List Char) : Bool :=
  (List.range (s.length + 1)).any (fun i => as.any (fun a => occB a s i))

/-- One step of re.findall scanning: a matcher takes the wordness of the
previous character and the remaining input and returns the length of the
match at the current position, if any.  Scanning tries every position from
left to right and resumes after the end of each (non-empty) match.  The
fuel argument only serves structural termination; every step consumes at
least one character, so fuel equal to the input length is always enough. -/
def reScan (m : Bool → List Char → Option Nat) :
    Nat → Bool → List Char → List (List Char)
  | 0, _, _ => []
  | _, _, [] => []
  | f + 1, prevW, c :: cs =>
    match m prevW (c :: cs) with
    | some (n + 1) =>
      (c :: cs.take n) :: reScan m f (wordCharO (charAtOpt (c :: cs) n)) (cs.drop n)
    | _ => reScan m f (wordChar c) cs

/-- re.findall over a whole message (the scan starts at the left edge, whose
previous-character wordness is false). -/
def findallRe (m : Bool → List Char → Option Nat) (s : List Char) :
    List (List Char) := reScan m s.length false s

/-- The first n characters are all digits. -/
def allDigitsTake (n : Nat) (s : List Char) : Bool :=
  (s.take n).length == n && (s.take n).all Char.isDigit

/-- Matcher for the bank-account pattern \x5cb\x5cd{9,18}\x5cb: a greedy
digit run of 9 to 18 digits delimited by word boundaries.  A digit run
longer than 18 characters can never satisfy the trailing boundary under
backtracking, so the compiled form requires the full run to have length
between 9 and 18. -/
def bankM (prevW : Bool) (s : List Char) : Option Nat :=
  let d := (s.takeWhile Char.isDigit).length
  if !prevW && decide (9 ≤ d) && decide (d ≤ 18) && nonWordNext (s.drop d) then
    some d
  else none

/-- Tail of the aadhar pattern: four digits followed by a word boundary. -/
def aadharEnd (s : List Char) : Option Nat :=
  if allDigitsTake 4 s && nonWordNext (s.drop 4) then some 4 else none

/-- Middle of the aadhar pattern: four digits, an optional (greedy)
whitespace, then aadharEnd. -/
def aadharMid (s : List Char) : Option Nat :=
  if allDigitsTake 4 s then
    match s.drop 4 with
    | c :: cs =>
      if spaceChar c then
        match aadharEnd cs with
        | some n => some (4 + 1 + n)
        | none => (aadharEnd (c :: cs)).map (4 + ·)
      else (aadharEnd (c :: cs)).map (4 + ·)
    | [] => none
  else none

/-- Matcher for the aadhar pattern
\x5cb\x5cd{4}\x5cs?\x5cd{4}\x5cs?\x5cd{4}\x5cb: three groups of four digits
with optional single whitespace separators, delimited by word boundaries.
The leading boundary holds exactly when the previous character is non-word,
because a successful match starts with a digit. -/
def aadharM (prevW : Bool) (s : List Char) : Option Nat :=
  if prevW then none
  else if allDigitsTake 4 s then
    match s.drop 4 with
    | c :: cs =>
      if spaceChar c then
        match aadharMid cs with
        | some n => some (4 + 1 + n)
        | none => (aadharMid (c :: cs)).map (4 + ·)
      else (aadharMid (c :: cs)).map (4 + ·)
    | [] => none
  else none

/-- findall for the bank-account pattern. -/
def bankFindall (s : List Char) : List (List Char) := findallRe bankM s

/-- findall for the aadhar pattern. -/
def aadharFindall (s : List Char) : List (List Char) := findallRe aadharM s

example : bankFindall (cl "pay to 123456789012 now") = [cl "123456789012"] := by decide
example : bankFindall (cl "a123456789012b") = [] := by decide
example : aadharFindall (cl "1234 5678 9012") = [cl "1234 5678 9012"] := by decide
example : aadharFindall (cl "123456789012") = [cl "123456789012"] := by decide
example : aadharFindall (cl "a123456789012b") = [] := by decide
example : bankFindall (cl "12345678901234567890") = [] := by decide

/-- Character class of the UPI local part: [a-zA-Z0-9._-]. -/
def upiLocalChar (c : Char) : Bool :=
  c.isAlpha || c.isDigit || c == '.' || c == '_' || c == '-'

/-- Character class of the email local part: [A-Za-z0-9._%+-]. -/
def emailLocalChar (c : Char) : Bool :=
  c.isAlpha || c.isDigit || c == '.' || c == '_' || c == '%' || c == '+' || c == '-'

/-- Character class of the email domain part: [A-Za-z0-9.-]. -/
def emailDomainChar (c : Char) : Bool :=
  c.isAlpha || c.isDigit || c == '.' || c == '-'

/-- Character class of the email top-level-domain part.  The source class is
[A-Z|a-z]{2,}, which literally contains the pipe character. -/
def tldChar (c : Char) : Bool := c.isAlpha || c == '|'

/-- Matcher for the UPI pattern \x5cb[a-zA-Z0-9._-]+@[a-zA-Z]+\x5cb.  The
local and domain repetitions are greedy; neither can be shortened usefully
under backtracking (the local part stops exactly at the at-sign, and any
shortened domain is followed by a letter, which is a word character and so
can never satisfy the trailing boundary). -/
def upiM (prevW : Bool) (s : List Char) : Option Nat :=
  match s.head? with
  | none => none
  | some c =>
    if prevW == wordChar c then none
    else
      let loc := s.takeWhile upiLocalChar
      if loc.isEmpty then none
      else
        match s.drop loc.length with
        | '@' :: r2 =>
          let dom := r2.takeWhile Char.isAlpha
          if dom.isEmpty then none
          else if nonWordNext (r2.drop dom.length) then
            some (loc.length + 1 + dom.length)
          else none
        | _ => none

/-- Matcher for the email pattern
\x5cb[A-Za-z0-9._%+-]+@[A-Za-z0-9.-]+\x5c.[A-Z|a-z]{2,}\x5cb.  The greedy
domain repetition backtracks one character at a time, so the literal dot is
tried at every dot inside the maximal domain span from the latest to the
earliest; for each such split the greedy tld repetition is tried from its
longest length down to two, and the first combination that satisfies the
trailing word boundary wins. -/
def emailM (prevW : Bool) (s : List Char) : Option Nat :=
  match s.head? with
  | none => none
  | some c =>
    if prevW == wordChar c then none
    else
      let loc := s.takeWhile emailLocalChar
      if loc.isEmpty then none
      else
        match s.drop loc.length with
        | '@' :: r2 =>
          let dspan := r2.takeWhile emailDomainChar
          (((List.range dspan.length).reverse).filter
              (fun k => decide (0 < k) && dspan.getD k ' ' == '.')).findSome?
            (fun k =>
              let t := (r2.drop (k + 1)).takeWhile tldChar
              (((List.range (t.length + 1)).reverse).filter
                  (fun n => decide (2 ≤ n))).findSome?
                (fun n =>
                  match (t.take n).getLast? with
                  | some tc =>
                    if wordChar tc != wordCharO (charAtOpt r2 (k + 1 + n)) then
                      some (loc.length + 1 + k + 1 + n)
                    else none
                  | none => none))
        | _ => none

/-- Character class of the URL body.  The source class is the union of
[a-zA-Z], [0-9], [$-_@.&+] (a range from dollar to underscore that also
contains the four listed symbols) and [!*\x5c\x5c(),]; its percent-encoded
alternative %[0-9a-fA-F]{2} is subsumed because the percent sign lies inside
the dollar-to-underscore range and the alternation is left to right. -/
def urlChar (c : Char) : Bool :=
  c.isAlpha || c.isDigit || (decide ('$' ≤ c) && decide (c ≤ '_')) ||
  c == '!' || c == '*' || c == '\\' || c == '(' || c == ')' || c == ','

/-- Matcher for the URL pattern http[s]?://(urlChar)+ with a greedy body and
no boundary assertions. -/
def urlM (_ : Bool) (s : List Char) : Option Nat :=
  if (cl "https://").isPrefixOf s then
    let run := (s.drop 8).takeWhile urlChar
    if run.isEmpty then none else some (8 + run.length)
  else if (cl "http://").isPrefixOf s then
    let run := (s.drop 7).takeWhile urlChar
    if run.isEmpty then none else some (7 + run.length)
  else none

/-- Upper-case ASCII letter class [A-Z]. -/
def upperAZ (c : Char) : Bool := decide ('A' ≤ c) && decide (c ≤ 'Z')

/-- Matcher for the IFSC pattern \x5cb[A-Z]{4}0[A-Z0-9]{6}\x5cb (applied to
the upper-cased message, as in the source). -/
def ifscM (prevW : Bool) (s : List Char) : Option Nat :=
  let w := s.take 11
  if w.length == 11 && (w.take 4).all upperAZ && w.getD 4 ' ' == '0' &&
      (w.drop 5).all (fun c => upperAZ c || c.isDigit) && !prevW &&
      nonWordNext (s.drop 11) then
    some 11
  else none

/-- Matcher for the PAN pattern \x5cb[A-Z]{5}[0-9]{4}[A-Z]\x5cb (applied to
the upper-cased message, as in the source). -/
def panM (prevW : Bool) (s : List Char) : Option Nat :=
  let w := s.take 10
  if w.length == 10 && (w.take 5).all upperAZ &&
      ((w.drop 5).take 4).all Char.isDigit && upperAZ (w.getD 9 ' ') &&
      !prevW && nonWordNext (s.drop 10) then
    some 10
  else none

/-- Core of the extractor phone pattern: [6-9]\x5cd{9}\x5cb. -/
def phoneCore (s : List Char) : Option Nat :=
  let w := s.take 10
  if w.length == 10 && w.all Char.isDigit &&
      (match w.head? with
       | some c => decide ('6' ≤ c) && decide (c ≤ '9')
       | none => false) &&
      nonWordNext (s.drop 10) then
    some 10
  else none

/-- Matcher for the extractor phone pattern
\x5cb(?:\x5c+91[\x5cs-]?)?[6-9]\x5cd{9}\x5cb.  The optional +91 group is
greedy; when it participates the leading boundary sits before the plus sign
(a non-word character), so the previous character must be a word character;
when it does not, the boundary sits before the leading digit, so the
previous character must be non-word. -/
def phoneM (prevW : Bool) (s : List Char) : Option Nat :=
  let withGroup : Option Nat :=
    match s with
    | '+' :: r =>
      if prevW && (cl "91").isPrefixOf r then
        match r.drop 2 with
        | c :: cs =>
          if spaceChar c || c == '-' then
            match phoneCore cs with
            | some n => some (1 + 2 + 1 + n)
            | none => (phoneCore (c :: cs)).map (fun n => 1 + 2 + n)
          else (phoneCore (c :: cs)).map (fun n => 1 + 2 + n)
        | [] => none
      else none
    | _ => none
  match withGroup with
  | some n => some n
  | none => if !prevW then phoneCore s else none

/-- findall for the UPI pattern. -/
def upiFindall (s : List Char) : List (List Char) := findallRe upiM s

/-- findall for the email pattern. -/
def emailFindall (s : List Char) : List (List Char) := findallRe emailM s

/-- findall for the URL pattern. -/
def urlFindall (s : List Char) : List (List Char) := findallRe urlM s

/-- findall for the IFSC pattern over the upper-cased message. -/
def ifscFindall (s : List Char) : List (List Char) :=
  findallRe ifscM (s.map Char.toUpper)

/-- findall for the PAN pattern over the upper-cased message. -/
def panFindall (s : List Char) : List (List Char) :=
  findallRe panM (s.map Char.toUpper)

/-- findall for the extractor phone pattern. -/
def phoneFindall (s : List Char) : List (List Char) := findallRe phoneM s

example : upiFindall (cl "9876543210@paytm") = [cl "9876543210@paytm"] := by decide
example : upiFindall (cl "user@gmail.com") = [cl "user@gmail"] := by decide
example : emailFindall (cl "user@gmail.com") = [cl "user@gmail.com"] := by decide
example : emailFindall (cl "9876543210@paytm") = [] := by decide
example : urlFindall (cl "go to http://fake-bank-verify.com now") =
    [cl "http://fake-bank-verify.com"] := by decide
example : ifscFindall (cl "ifsc: sbin0001234.") = [cl "SBIN0001234"] := by decide
example : phoneFindall (cl "call 9876543210") = [cl "9876543210"] := by decide
example : phoneFindall (cl "+919876543210") = [] := by decide
example : phoneFindall (cl "x+91 9876543210") = [cl "+91 9876543210"] := by decide
example : aadharFindall (cl "12345678 9012 3456") = [cl "12345678 9012"] := by decide
example : aadharFindall (cl "1234 567890123456") = [cl "567890123456"] := by decide
example : aadharFindall (cl "1234  5678 9012") = [] := by decide
example : upiFindall (cl ".abc@x y.abc@x") = [cl "abc@x", cl "y.abc@x"] := by decide
example : upiFindall (cl "a@b1") = [] := by decide
example : emailFindall (cl "a@b.cd9") = [] := by decide
example : emailFindall (cl "a@bc.de|fg") = [cl "a@bc.de|fg"] := by decide
example : emailFindall (cl "x a@b.c.de f") = [cl "a@b.c.de"] := by decide
example : emailFindall (cl "a.@b.com") = [cl "a.@b.com"] := by decide
example : urlFindall (cl "https:// x") = [] := by decide
example : urlFindall (cl "http://a b http://c") = [cl "http://a", cl "http://c"] := by decide
example : phoneFindall (cl "+91-9876543210x") = [] := by decide
example : phoneFindall (cl "12345678901") = [] := by decide

/-- Role of a transcript message. -/
inductive Role where
  | scammer
  | agent
deriving DecidableEq

/-- One transcript message (the timestamp and optional strategy annotations
of the record are orchestrator metadata and carry no logic). -/
structure Message where
  role : Role
  content : List Char
deriving DecidableEq

/-- Ten digits starting at index i. -/
def tenDigitsAt (s : List Char) (i : Nat) : Bool := allDigitsTake 10 (s.drop i)

/-- Wordness of the character before index i (the left edge is non-word). -/
def prevWAt (s : List Char) (i : Nat) : Bool :=
  match i with
  | 0 => false
  | j + 1 => wordCharO (charAtOpt s j)

/-- First branch of the detector phone pattern at index i:
\x5cb\x5cd{10}\x5cb. -/
def detPhoneB1At (s : List Char) (i : Nat) : Bool :=
  tenDigitsAt s i && !prevWAt s i && nonWordNext (s.drop (i + 10))

/-- Second branch of the detector phone pattern at index i:
\x5c+\x5cd{1,3}[\x5cs-]?\x5cd{10}\x5cb (no leading boundary). -/
def detPhoneB2At (s : List Char) (i : Nat) : Bool :=
  charAtOpt s i == some '+' &&
  ([3, 2, 1] : List Nat).any (fun k =>
    allDigitsTake k (s.drop (i + 1)) &&
    (let base := i + 1 + k
     (match charAtOpt s base with
      | some c =>
        (spaceChar c || c == '-') && tenDigitsAt s (base + 1) &&
        nonWordNext (s.drop (base + 11))
      | none => false) ||
     (tenDigitsAt s base && nonWordNext (s.drop (base + 10)))))

/-- Search for the detector phone pattern
\x5cb\x5cd{10}\x5cb|\x5c+\x5cd{1,3}[\x5cs-]?\x5cd{10}\x5cb. -/
def searchDetPhone (s : List Char) : Bool :=
  (List.range s.length).any (fun i => detPhoneB1At s i || detPhoneB2At s i)

/-- Search for a bare \x5cb\x5cd{10}\x5cb ten-digit run. -/
def searchTenDigits (s : List Char) : Bool :=
  (List.range s.length).any (fun i => detPhoneB1At s i)

/-- Search for the bare scheme pattern http[s]?:// . -/
def searchHttpScheme (s : List Char) : Bool :=
  containsSub (cl "http://") s || containsSub (cl "https://") s

/-- Search for the full URL pattern (scheme plus at least one body
character): the phishing pattern list and the extractor both use it. -/
def searchUrlPat (s : List Char) : Bool := !(urlFindall s).isEmpty

namespace ScamDetector

/-- financial_fraud patterns of scam_patterns, in source order, each
compiled from its regex; a category counts once (the source breaks after
the first matching pattern). -/
def financialFraudHit (s : List Char) : Bool :=
  searchPair [cl "bank", cl "account", cl "atm", cl "credit card", cl "debit card"]
    [cl "block", cl "expire", cl "suspend", cl "verify", cl "update", cl "confirm"] s ||
  searchPair [cl "urgent", cl "immediate", cl "action required"]
    [cl "account", cl "card", cl "bank"] s ||
  searchPair [cl "kyc"] [cl "update", cl "pending", cl "expire", cl "verify"] s ||
  searchPair [cl "refund", cl "cashback", cl "reward", cl "prize"]
    [cl "claim", cl "pending", cl "won", cl "congratulations"] s

/-- payment_scam patterns of scam_patterns. -/
def paymentScamHit (s : List Char) : Bool :=
  searchPair [cl "paytm", cl "phonepe", cl "gpay", cl "google pay", cl "upi"]
    [cl "verify", cl "update", cl "expire", cl "link", cl "activate"] s ||
  searchPair [cl "send"] [cl "otp", cl "code", cl "pin", cl "password"] s ||
  searchPair [cl "transfer", cl "payment"] [cl "failed", cl "pending", cl "reversed"] s

/-- phishing patterns of scam_patterns (the first one has no leading word
boundary on its click/tap/visit alternation). -/
def phishingHit (s : List Char) : Bool :=
  searchPairTrail [cl "click", cl "tap", cl "visit"] [cl "link", cl "url", cl "website"] s ||
  searchPair [cl "link"] [cl "verify", cl "update", cl "activate", cl "claim"] s ||
  searchUrlPat s

/-- impersonation patterns of scam_patterns. -/
def impersonationHit (s : List Char) : Bool :=
  searchAlone [cl "dear customer", cl "valued customer", cl "account holder"] s ||
  searchPair [cl "from"]
    [cl "bank", cl "government", cl "tax department", cl "it department"] s ||
  searchAlone [cl "rbi", cl "sebi", cl "income tax", cl "gst"] s

/-- lottery_prize patterns of scam_patterns (lakhs?, crores?, rupees? and
rs\x5c.? expand into their two literal alternatives). -/
def lotteryPrizeHit (s : List Char) : Bool :=
  searchPair [cl "won", cl "winner", cl "selected", cl "lucky"]
    [cl "lottery", cl "prize", cl "reward", cl "contest"] s ||
  searchPair [cl "congratulations"] [cl "win", cl "won", cl "selected"] s ||
  searchPair [cl "lakh", cl "lakhs", cl "crore", cl "crores", cl "million"]
    [cl "rupee", cl "rupees", cl "rs", cl "rs.", cl "inr"] s

/-- job_scam patterns of scam_patterns. -/
def jobScamHit (s : List Char) : Bool :=
  searchPair [cl "job", cl "work from home", cl "part time", cl "earn"]
    [cl "daily", cl "monthly", cl "weekly"] s ||
  searchPair [cl "register", cl "registration"] [cl "fee", cl "amount", cl "payment"] s ||
  searchPair [cl "guaranteed", cl "assured"] [cl "income", cl "salary", cl "earning"] s

/-- Ordered list of the scam-type names whose pattern list matched the
lower-cased message, in the iteration order of the scam_patterns table. -/
def scamTypeHits (s : List Char) : List (List Char) :=
  (if financialFraudHit s then [cl "financial_fraud"] else []) ++
  (if paymentScamHit s then [cl "payment_scam"] else []) ++
  (if phishingHit s then [cl "phishing"] else []) ++
  (if impersonationHit s then [cl "impersonation"] else []) ++
  (if lotteryPrizeHit s then [cl "lottery_prize"] else []) ++
  (if jobScamHit s then [cl "job_scam"] else [])

/-- The urgency_keywords table. -/
def urgencyKeywords : List (List Char) :=
  [cl "urgent", cl "immediately", cl "asap", cl "now", cl "today",
   cl "expire", cl "expiring", cl "last chance", cl "limited time",
   cl "within 24 hours", cl "act now", cl "don\x27t wait"]

/-- The credential_requests table. -/
def credentialRequests : List (List Char) :=
  [cl "otp", cl "pin", cl "password", cl "cvv", cl "card number",
   cl "account number", cl "aadhar", cl "pan", cl "date of birth",
   cl "mother\x27s maiden name", cl "security code"]

/-- The financial_indicators table. -/
def financialIndicators : List (List Char) :=
  [cl "bank account", cl "account number", cl "ifsc", cl "upi id",
   cl "upi", cl "paytm", cl "phonepe", cl "gpay", cl "payment link",
   cl "transfer money", cl "send money", cl "pay now"]

/-- The scam_phrases list of analyze. -/
def scamPhrases : List (List Char) :=
  [cl "verify your account", cl "account will be blocked", cl "suspended account",
   cl "claim your reward", cl "you have won", cl "confirm your identity",
   cl "update your kyc", cl "expired card", cl "failed transaction",
   cl "refund pending", cl "tax refund", cl "government grant"]

/-- Number of table entries contained in the message, as the generator
expressions sum(1 for k in table if k in message) of the source. -/
def countKw (ks : List (List Char)) (s : List Char) : Nat :=
  (ks.filter (fun k => containsSub k s)).length

/-- Credential-keyword total over the scammer-authored messages among the
last three messages of the history (the source slices the history first and
filters by role afterwards), each message contributing the number of
credential keywords it contains. -/
def credProgressionCount (history : List Message) : Nat :=
  (((lastN 3 history).filter (fun m => decide (m.role = Role.scammer))).map
    (fun m => countKw credentialRequests (lowerL m.content))).sum

/-- One human-readable indicator of the analysis result.  The source builds
formatted strings; the constructor payloads carry exactly the data
interpolated into them. -/
inductive Indicator where
  | patternMatched (scamType : List Char)
  | urgencyLanguage (count : Nat)
  | credentialKinds (count : Nat)
  | financialTerminology (count : Nat)
  | externalLink
  | phoneNumber
  | scamPhraseMatches (count : Nat)
  | progressiveHarvesting
deriving DecidableEq

/-- Result of ScamDetector.analyze.  confidence is the clamped score in
centi-points (the float 0.15 of the source is the integer 15 here, and the
clamp to 1.0 is the clamp to 100); the returned confidence of the source is
round(score, 3), which is the identity on these values because every
contribution is a whole number of centi-points.  The derived reasoning
string of the source is presentation only and is not modelled. -/
structure AnalyzeResult where
  isScam : Bool
  confidence : Nat
  scamType : List Char
  indicators : List Indicator
  allDetectedTypes : List (List Char)
deriving DecidableEq

/-- ScamDetector.analyze: pattern categories contribute 15 each, urgency
min(10u,30), credentials min(15c,40), financial terms min(8f,25), a URL a
flat 20, a phone number a flat 10, scam phrases min(12p,35), and the
progressive-harvesting history check a flat 25; the sum is clamped to 100
and the verdict is score at least 30. -/
def analyze (message : List Char) (conversationHistory : List Message) :
    AnalyzeResult :=
  let ml := lowerL message
  let types := scamTypeHits ml
  let u := countKw urgencyKeywords ml
  let c := countKw credentialRequests ml
  let f := countKw financialIndicators ml
  let urlB := searchHttpScheme ml
  let phB := searchDetPhone message
  let p := countKw scamPhrases ml
  let progB := decide (1 < conversationHistory.length) &&
    decide (2 ≤ credProgressionCount conversationHistory)
  let score :=
    15 * types.length +
    (if 0 < u then min (u * 10) 30 else 0) +
    (if 0 < c then min (c * 15) 40 else 0) +
    (if 0 < f then min (f * 8) 25 else 0) +
    (if urlB then 20 else 0) +
    (if phB then 10 else 0) +
    (if 0 < p then min (p * 12) 35 else 0) +
    (if progB then 25 else 0)
  let confidence := min score 100
  { isScam := decide (30 ≤ confidence)
    confidence := confidence
    scamType := (types.head?).getD (cl "unknown")
    indicators :=
      types.map Indicator.patternMatched ++
      (if 0 < u then [Indicator.urgencyLanguage u] else []) ++
      (if 0 < c then [Indicator.credentialKinds c] else []) ++
      (if 0 < f then [Indicator.financialTerminology f] else []) ++
      (if urlB then [Indicator.externalLink] else []) ++
      (if phB then [Indicator.phoneNumber] else []) ++
      (if 0 < p then [Indicator.scamPhraseMatches p] else []) ++
      (if progB then [Indicator.progressiveHarvesting] else [])
    allDetectedTypes := types }

end ScamDetector

example :
    (ScamDetector.analyze (cl "hello there") []).isScam = false := by decide
example :
    (ScamDetector.analyze
      (cl "your account will be blocked, verify your kyc immediately") []).isScam
      = true := by decide

namespace IntelligenceExtractor

/-- The upi_providers table. -/
def upiProviders : List (List Char) :=
  [cl "paytm", cl "phonepe", cl "googlepay", cl "gpay", cl "bhim",
   cl "ybl", cl "okhdfcbank", cl "oksbi", cl "okicici", cl "okaxis"]

/-- The payment_apps vocabulary of _extract_payment_apps. -/
def paymentAppsVocab : List (List Char) :=
  [cl "paytm", cl "phonepe", cl "gpay", cl "google pay", cl "bhim", cl "amazon pay"]

/-- Bounded provenance excerpt stored with every finding: the first fifty
characters of the source message, with an ellipsis when truncated. -/
def provenance (msg : List Char) : List Char :=
  if 50 < msg.length then msg.take 50 ++ cl "..." else msg

/-- A bank-account finding. -/
structure BankFinding where
  accountNumber : List Char
  length : Nat
  extractedFrom : List Char
deriving DecidableEq

/-- An IFSC-code finding. -/
structure IfscFinding where
  ifscCode : List Char
  bankCode : List Char
  branchCode : List Char
  extractedFrom : List Char
deriving DecidableEq

/-- A UPI-handle finding. -/
structure UpiFinding where
  upiId : List Char
  provider : List Char
  extractedFrom : List Char
deriving DecidableEq

/-- A phone-number finding. -/
structure PhoneFinding where
  phoneNumber : List Char
  formatted : List Char
  extractedFrom : List Char
deriving DecidableEq

/-- The suspiciousness verdict attached to a URL finding. -/
structure UrlSuspicion where
  isSuspicious : Bool
  reasons : List (List Char)
deriving DecidableEq

/-- A URL finding; the source stores the whole suspicion dictionary under
is_suspicious and its reason list once more under suspicion_reasons. -/
structure UrlFinding where
  url : List Char
  domain : List Char
  isSuspicious : UrlSuspicion
  suspicionReasons : List (List Char)
  extractedFrom : List Char
deriving DecidableEq

/-- An email-address finding. -/
structure EmailFinding where
  email : List Char
  domain : List Char
  extractedFrom : List Char
deriving DecidableEq

/-- A monetary-amount finding; the float of the source is modelled as an
exact rational. -/
structure AmountFinding where
  amount : ℚ
  formatted : List Char
  context : List Char
deriving DecidableEq

/-- A PAN-card finding. -/
structure PanFinding where
  panNumber : List Char
  extractedFrom : List Char
deriving DecidableEq

/-- An aadhar finding; only the masked form of the number is stored. -/
structure AadharFinding where
  aadharMasked : List Char
  extractedFrom : List Char
deriving DecidableEq

/-- The extraction_metadata block (the wall-clock extraction timestamp is
orchestration I/O and is not modelled). -/
structure ExtractionMetadata where
  totalMessagesAnalyzed : Nat
  scammerMessagesCount : Nat
deriving DecidableEq

/-- The intelligence dictionary assembled by extract. -/
structure Intelligence where
  bankAccounts : List BankFinding
  ifscCodes : List IfscFinding
  upiIds : List UpiFinding
  phoneNumbers : List PhoneFinding
  phishingUrls : List UrlFinding
  emailAddresses : List EmailFinding
  amountsMentioned : List AmountFinding
  panCards : List PanFinding
  aadharNumbers : List AadharFinding
  paymentApps : List (List Char)
  extractionMetadata : ExtractionMetadata
deriving DecidableEq

/-- _extract_bank_accounts on one message: findall then the redundant
9-to-18-digit validation of the source. -/
def msgBankFindings (msg : List Char) : List BankFinding :=
  ((bankFindall msg).filter
      (fun m => decide (9 ≤ m.length) && decide (m.length ≤ 18))).map
    (fun m => { accountNumber := m, length := m.length, extractedFrom := provenance msg })

/-- _extract_ifsc_codes on one message: findall over the upper-cased
message; bank_code is the first four characters and branch_code the part
after index five. -/
def msgIfscFindings (msg : List Char) : List IfscFinding :=
  (ifscFindall msg).map
    (fun m =>
      { ifscCode := m, bankCode := m.take 4, branchCode := m.drop 5,
        extractedFrom := provenance msg })

/-- The local part of an at-sign token (split('@')[0]). -/
def atLocal (m : List Char) : List Char := m.takeWhile (fun c => c != '@')

/-- The part after the first at-sign (split('@')[1]); matches of the UPI and
email patterns contain exactly one at-sign. -/
def atDomain (m : List Char) : List Char :=
  (m.dropWhile (fun c => c != '@')).drop 1

/-- _extract_upi_ids on one message: findall, then keep a match when its
domain contains a known provider name, or when the local part has at most
twenty characters and the domain contains no dot. -/
def msgUpiFindings (msg : List Char) : List UpiFinding :=
  ((upiFindall msg).filter
      (fun m =>
        upiProviders.any (fun p => containsSub p (lowerL (atDomain m))) ||
        (decide ((atLocal m).length ≤ 20) && !containsSub (cl ".") (atDomain m)))).map
    (fun m =>
      { upiId := m, provider := atDomain m, extractedFrom := provenance msg })

/-- _extract_phone_numbers on one message: findall, then strip whitespace
and dashes for the cleaned number. -/
def msgPhoneFindings (msg : List Char) : List PhoneFinding :=
  (phoneFindall msg).map
    (fun m =>
      { phoneNumber := m.filter (fun c => !(spaceChar c || c == '-')),
        formatted := m, extractedFrom := provenance msg })

/-- The suspicious_tlds table of _analyze_url_suspiciousness. -/
def suspiciousTlds : List (List Char) :=
  [cl ".xyz", cl ".top", cl ".club", cl ".tk", cl ".ml", cl ".ga", cl ".cf", cl ".gq"]

/-- The shorteners table of _analyze_url_suspiciousness. -/
def shorteners : List (List Char) :=
  [cl "bit.ly", cl "tinyurl", cl "goo.gl", cl "t.co", cl "ow.ly"]

/-- The legit_domains table of _analyze_url_suspiciousness. -/
def legitDomains : List (List Char) :=
  [cl "paytm", cl "phonepe", cl "googlepay", cl "sbi", cl "hdfc", cl "icici", cl "axis"]

/-- Search for the raw IPv4 pattern
\x5cd{1,3}\x5c.\x5cd{1,3}\x5c.\x5cd{1,3}\x5c.\x5cd{1,3}. -/
def searchIpQuad (s : List Char) : Bool :=
  (List.range s.length).any (fun i =>
    ([1, 2, 3] : List Nat).any (fun k1 =>
      allDigitsTake k1 (s.drop i) && charAtOpt s (i + k1) == some '.' &&
      ([1, 2, 3] : List Nat).any (fun k2 =>
        allDigitsTake k2 (s.drop (i + k1 + 1)) &&
        charAtOpt s (i + k1 + 1 + k2) == some '.' &&
        ([1, 2, 3] : List Nat).any (fun k3 =>
          allDigitsTake k3 (s.drop (i + k1 + 1 + k2 + 1)) &&
          charAtOpt s (i + k1 + 1 + k2 + 1 + k3) == some '.' &&
          ([1, 2, 3] : List Nat).any (fun k4 =>
            allDigitsTake k4 (s.drop (i + k1 + 1 + k2 + 1 + k3 + 1)))))))

/-- _analyze_url_suspiciousness: low-trust TLD, raw IPv4 literal, link
shortener, and brand names without their canonical domain, with the reasons
collected in source order. -/
def analyzeUrlSusp (url : List Char) : UrlSuspicion :=
  let ul := lowerL url
  let tldB := suspiciousTlds.any (fun t => containsSub t ul)
  let ipB := searchIpQuad url
  let shortB := shorteners.any (fun t => containsSub t ul)
  let brandReasons :=
    legitDomains.filterMap
      (fun d =>
        if containsSub d ul && !containsSub (d ++ cl ".com") ul &&
            !containsSub (d ++ cl ".in") ul then
          some (cl "Potential " ++ d ++ cl " phishing")
        else none)
  { isSuspicious := tldB || ipB || shortB || !brandReasons.isEmpty
    reasons :=
      (if tldB then [cl "Suspicious TLD"] else []) ++
      (if ipB then [cl "Uses IP address"] else []) ++
      (if shortB then [cl "URL shortener"] else []) ++
      brandReasons }

/-- _extract_domain: the host segment after the first scheme separator, or
unknown when there is none. -/
def extractDomain (url : List Char) : List Char :=
  match (List.range url.length).find?
      (fun i =>
        (cl "://").isPrefixOf (url.drop i) &&
        (match charAtOpt url (i + 3) with
         | some c => c != '/'
         | none => false)) with
  | some i => (url.drop (i + 3)).takeWhile (fun c => c != '/')
  | none => cl "unknown"

/-- _extract_urls on one message. -/
def msgUrlFindings (msg : List Char) : List UrlFinding :=
  (urlFindall msg).map
    (fun m =>
      { url := m, domain := extractDomain m, isSuspicious := analyzeUrlSusp m,
        suspicionReasons := (analyzeUrlSusp m).reasons,
        extractedFrom := provenance msg })

/-- _extract_emails on one message: findall, then drop any match containing
a known payment-provider name. -/
def msgEmailFindings (msg : List Char) : List EmailFinding :=
  ((emailFindall msg).filter
      (fun m => !upiProviders.any (fun p => containsSub p (lowerL m)))).map
    (fun m =>
      { email := m, domain := atDomain m, extractedFrom := provenance msg })

/-- Case-insensitive literal prefix test for the amount-pattern prefixes. -/
def ciPrefix (p s : List Char) : Bool := p.isPrefixOf (lowerL (s.take p.length))

/-- Greedy (,\x5cd{3})* repetition: consumed length and consumed text. -/
def commaGroups : Nat → List Char → Nat × List Char
  | f + 1, ',' :: r =>
    if allDigitsTake 3 r then
      let (n, t) := commaGroups f (r.drop 3)
      (4 + n, ',' :: (r.take 3 ++ t))
    else (0, [])
  | _, _ => (0, [])

/-- Matcher for the amount pattern
(?:rs\x5c.?|rupees?|inr)\x5cs*(\x5cd+(?:,\x5cd{3})*(?:\x5c.\x5cd{2})?) with
the IGNORECASE flag; returns the total consumed length together with the
captured numeric group, which is what findall collects. -/
def amountM (s : List Char) : Option (Nat × List Char) :=
  let pre : Option Nat :=
    if ciPrefix (cl "rs") s then
      some (if charAtOpt s 2 == some '.' then 3 else 2)
    else if ciPrefix (cl "rupees") s then some 6
    else if ciPrefix (cl "rupee") s then some 5
    else if ciPrefix (cl "inr") s then some 3
    else none
  match pre with
  | none => none
  | some pl =>
    let rest := s.drop pl
    let sp := (rest.takeWhile spaceChar).length
    let num := rest.drop sp
    let ds := num.takeWhile Char.isDigit
    if ds.isEmpty then none
    else
      let (extraLen, extra) := commaGroups num.length (num.drop ds.length)
      let frac : Nat × List Char :=
        match num.drop (ds.length + extraLen) with
        | '.' :: r2 =>
          if allDigitsTake 2 r2 then (3, '.' :: r2.take 2) else (0, [])
        | _ => (0, [])
      let grp := ds ++ extra ++ frac.2
      -- the captured group text and the consumed input coincide after the
      -- prefix and the whitespace, so the total match length is their sum
      some (pl + sp + grp.length, grp)

/-- findall for the amount pattern, collecting the captured groups of the
non-overlapping matches from left to right. -/
def amountScan : Nat → List Char → List (List Char)
  | 0, _ => []
  | _, [] => []
  | f + 1, c :: cs =>
    match amountM (c :: cs) with
    | some (n + 1, g) => g :: amountScan f (cs.drop n)
    | _ => amountScan f cs

/-- findall for the amount pattern over a whole message. -/
def amountFindall (s : List Char) : List (List Char) := amountScan s.length s

/-- Numeric value of a digit string. -/
def digitsToNat (l : List Char) : Nat :=
  l.foldl (fun a c => 10 * a + (c.toNat - '0'.toNat)) 0

/-- float(amount_str) on a captured group with commas removed, as an exact
rational; with this group shape the conversion never raises, so the
ValueError branch of the source that silently drops a candidate is
unreachable. -/
def parseAmount (g : List Char) : ℚ :=
  let g' := g.filter (fun c => c != ',')
  let ip := g'.takeWhile (fun c => c != '.')
  let fp := (g'.dropWhile (fun c => c != '.')).drop 1
  (digitsToNat ip : ℚ) + (digitsToNat fp : ℚ) / ((10 : ℚ) ^ fp.length)

/-- _extract_amount_context: a thirty-character window on each side of the
first occurrence of the amount text in the lower-cased message, with
ellipses marking truncation; empty when the text is not found. -/
def extractAmountContext (message grp : List Char) : List Char :=
  match (List.range (message.length + 1)).find?
      (fun i => (lowerL grp).isPrefixOf ((lowerL message).drop i)) with
  | none => []
  | some pos =>
    let start := pos - 30
    let stop := min message.length (pos + grp.length + 30)
    let ctx := (message.drop start).take (stop - start)
    let ctx1 := if 0 < start then cl "..." ++ ctx else ctx
    if stop < message.length then ctx1 ++ cl "..." else ctx1

/-- _extract_amounts on one message. -/
def msgAmountFindings (msg : List Char) : List AmountFinding :=
  (amountFindall msg).map
    (fun g =>
      { amount := parseAmount g, formatted := g,
        context := extractAmountContext msg g })

/-- _extract_pan_cards on one message. -/
def msgPanFindings (msg : List Char) : List PanFinding :=
  (panFindall msg).map
    (fun m => { panNumber := m, extractedFrom := provenance msg })

/-- _extract_aadhar on one message: every match is stored masked, as the
fixed mask followed by the last four characters of the match. -/
def msgAadharFindings (msg : List Char) : List AadharFinding :=
  (aadharFindall msg).map
    (fun m =>
      { aadharMasked := cl "XXXX XXXX " ++ m.drop (m.length - 4),
        extractedFrom := provenance msg })

/-- _extract_payment_apps folded over one message: append each mentioned
app unless it is already present. -/
def msgPaymentApps (acc : List (List Char)) (msg : List Char) : List (List Char) :=
  paymentAppsVocab.foldl
    (fun acc app =>
      if containsSub app (lowerL msg) && !acc.contains app then acc ++ [app]
      else acc)
    acc

/-- Keep the first finding for every key, dropping later duplicates; the
seen accumulator carries the keys already emitted. -/
def dedupFirst (key : α → List Char) : List α → List (List Char) → List α
  | [], _ => []
  | x :: xs, seen =>
    if key x ∈ seen then dedupFirst key xs seen
    else x :: dedupFirst key xs (key x :: seen)

/-- The scammer-authored message bodies of a transcript, in order. -/
def scammerContents (history : List Message) : List (List Char) :=
  (history.filter (fun m => decide (m.role = Role.scammer))).map (·.content)

/-- The per-kind summary counts plus the quality score. -/
structure Summary where
  totalBankAccounts : Nat
  totalIfscCodes : Nat
  totalUpiIds : Nat
  totalPhoneNumbers : Nat
  totalPhishingUrls : Nat
  totalSuspiciousUrls : Nat
  totalEmailAddresses : Nat
  totalAmountsMentioned : Nat
  totalPanCards : Nat
  totalAadharNumbers : Nat
  totalPaymentApps : Nat
  intelligenceQualityScore : Nat
deriving DecidableEq

/-- _calculate_quality_score: a weighted sum of the deduplicated finding
counts, clamped to 100 (bank accounts 20, UPI 15, IFSC 10, phone 8, URL 12,
email 5, amount 3; PAN, aadhar and payment apps carry no weight). -/
def calculateQualityScore (i : Intelligence) : Nat :=
  min
    (20 * i.bankAccounts.length + 15 * i.upiIds.length + 10 * i.ifscCodes.length +
     8 * i.phoneNumbers.length + 12 * i.phishingUrls.length +
     5 * i.emailAddresses.length + 3 * i.amountsMentioned.length)
    100

/-- _generate_summary over the deduplicated intelligence. -/
def generateSummary (i : Intelligence) : Summary :=
  { totalBankAccounts := i.bankAccounts.length
    totalIfscCodes := i.ifscCodes.length
    totalUpiIds := i.upiIds.length
    totalPhoneNumbers := i.phoneNumbers.length
    totalPhishingUrls := i.phishingUrls.length
    totalSuspiciousUrls :=
      (i.phishingUrls.filter (fun u => u.isSuspicious.isSuspicious)).length
    totalEmailAddresses := i.emailAddresses.length
    totalAmountsMentioned := i.amountsMentioned.length
    totalPanCards := i.panCards.length
    totalAadharNumbers := i.aadharNumbers.length
    totalPaymentApps := i.paymentApps.length
    intelligenceQualityScore := calculateQualityScore i }

/-- The result of extract: the deduplicated intelligence together with its
summary block. -/
structure ExtractResult where
  intelligence : Intelligence
  summary : Summary
deriving DecidableEq

/-- IntelligenceExtractor.extract: run every per-kind extractor over each
scammer-authored message of the transcript, deduplicate bank accounts, IFSC
codes, UPI handles, phone numbers, URLs and email addresses by their
normalized value keeping first occurrences (amounts, PAN, aadhar and
payment apps are not deduplicated further), and attach the summary. -/
def extract (conversationHistory : List Message) : ExtractResult :=
  let msgs := scammerContents conversationHistory
  let intel : Intelligence :=
    { bankAccounts :=
        dedupFirst (fun f => f.accountNumber) (msgs.flatMap msgBankFindings) []
      ifscCodes := dedupFirst (fun f => f.ifscCode) (msgs.flatMap msgIfscFindings) []
      upiIds := dedupFirst (fun f => f.upiId) (msgs.flatMap msgUpiFindings) []
      phoneNumbers :=
        dedupFirst (fun f => f.phoneNumber) (msgs.flatMap msgPhoneFindings) []
      phishingUrls := dedupFirst (fun f => f.url) (msgs.flatMap msgUrlFindings) []
      emailAddresses :=
        dedupFirst (fun f => f.email) (msgs.flatMap msgEmailFindings) []
      amountsMentioned := msgs.flatMap msgAmountFindings
      panCards := msgs.flatMap msgPanFindings
      aadharNumbers := msgs.flatMap msgAadharFindings
      paymentApps := msgs.foldl msgPaymentApps []
      extractionMetadata :=
        { totalMessagesAnalyzed := conversationHistory.length
          scammerMessagesCount := msgs.length } }
  { intelligence := intel, summary := generateSummary intel }

end IntelligenceExtractor

example : IntelligenceExtractor.amountFindall (cl "Pay Rs 5000 now") = [cl "5000"] := by decide
example : IntelligenceExtractor.amountFindall (cl "rs.2,500.00 fee") = [cl "2,500.00"] := by decide
example : IntelligenceExtractor.amountFindall (cl "INR 1,234.56 and rupees 78") =
    [cl "1,234.56", cl "78"] := by decide
example : IntelligenceExtractor.amountFindall (cl "Rs5 Rs 5.123") = [cl "5", cl "5.12"] := by decide
example : IntelligenceExtractor.amountFindall (cl "MRS. 99") = [cl "99"] := by decide
example : IntelligenceExtractor.amountFindall (cl "rs , 5") = [] := by decide
example : IntelligenceExtractor.searchIpQuad (cl "http://192.168.1.1/x") = true := by decide
example : IntelligenceExtractor.searchIpQuad (cl "http://a.b.c.d") = false := by decide
example : IntelligenceExtractor.searchIpQuad (cl "1234.5.6.7") = true := by decide
example : IntelligenceExtractor.extractDomain (cl "http://hdfc-kyc-update.tk") =
    cl "hdfc-kyc-update.tk" := by decide
example :
    (IntelligenceExtractor.analyzeUrlSusp (cl "http://hdfc-kyc-update.tk")).reasons =
      [cl "Suspicious TLD", cl "Potential hdfc phishing"] := by decide
example :
    (IntelligenceExtractor.extract
        [{ role := Role.scammer, content := cl "UPI 9876543210@paytm" }]).intelligence.upiIds.map
      (fun f => f.upiId) = [cl "9876543210@paytm"] := by decide
example :
    (IntelligenceExtractor.extract
        [{ role := Role.scammer, content := cl "mail user@gmail.com" }]).intelligence.emailAddresses.map
      (fun f => f.email) = [cl "user@gmail.com"] := by decide
example :
    (IntelligenceExtractor.extract
        [{ role := Role.scammer, content := cl "Account: 123456789012" },
         { role := Role.agent, content := cl "ok 123456789012" },
         { role := Role.scammer, content := cl "Account: 123456789012" }]).intelligence.bankAccounts.map
      (fun f => f.accountNumber) = [cl "123456789012"] := by decide

namespace AgentEngine

/-- The ConversationStage enumeration, with the string values of the source
enum. -/
inductive ConversationStage where
  | initialContact
  | confusion
  | interest
  | verification
  | compliance
  | extraction
deriving DecidableEq

/-- The string value carried by each enum member of the source. -/
def ConversationStage.value : ConversationStage → List Char
  | .initialContact => cl "initial_contact"
  | .confusion => cl "confusion"
  | .interest => cl "interest"
  | .verification => cl "verification"
  | .compliance => cl "compliance"
  | .extraction => cl "extraction"

/-- One entry of the scam_behaviors table. -/
structure ScamBehavior where
  emotionalState : List Char
  keyQuestions : List (List Char)
  complianceTriggers : List (List Char)
deriving DecidableEq

/-- The scam_behaviors table, as an association list in source order. -/
def scamBehaviors : List (List Char × ScamBehavior) :=
  [(cl "lottery_prize",
    { emotionalState := cl "excited_but_confused"
      keyQuestions :=
        [cl "How much did I win?", cl "How do I claim this prize?",
         cl "Do I need to pay anything first?", cl "When will I get the money?"]
      complianceTriggers :=
        [cl "prize", cl "winner", cl "congratulations", cl "claim"] }),
   (cl "banking_kyc",
    { emotionalState := cl "worried_urgent"
      keyQuestions :=
        [cl "Why is my account blocked?", cl "What happens if I don\x27t update?",
         cl "Is this the official bank number?", cl "How long will this take?"]
      complianceTriggers :=
        [cl "expire", cl "block", cl "suspend", cl "urgent", cl "immediately"] }),
   (cl "upi_payment",
    { emotionalState := cl "cautious_hesitant"
      keyQuestions :=
        [cl "Who is this payment from?", cl "Why did I receive this?",
         cl "Is this a mistake?", cl "Do I need to return money?"]
      complianceTriggers :=
        [cl "refund", cl "wrong", cl "mistake", cl "return"] }),
   (cl "job_offer",
    { emotionalState := cl "curious_skeptical"
      keyQuestions :=
        [cl "What company is this?", cl "What are the job responsibilities?",
         cl "Is this work from home?", cl "What\x27s the salary?"]
      complianceTriggers :=
        [cl "job", cl "opportunity", cl "earn", cl "work"] }),
   (cl "tech_support",
    { emotionalState := cl "confused_helpless"
      keyQuestions :=
        [cl "What\x27s wrong with my computer?", cl "How did you detect this problem?",
         cl "Is my data safe?", cl "Can you fix it remotely?"]
      complianceTriggers :=
        [cl "virus", cl "infected", cl "security", cl "fix"] }),
   (cl "investment",
    { emotionalState := cl "interested_cautious"
      keyQuestions :=
        [cl "What kind of returns can I expect?", cl "Is this registered with SEBI?",
         cl "What\x27s the minimum investment?", cl "Can I withdraw anytime?"]
      complianceTriggers :=
        [cl "profit", cl "returns", cl "investment", cl "earn"] })]

/-- Dictionary lookup in the scam_behaviors table (dict.get). -/
def lookupBehavior (scamType : List Char) : Option ScamBehavior :=
  (scamBehaviors.find? (fun p => decide (p.1 = scamType))).map (fun p => p.2)

/-- response_templates, initial_confusion. -/
def initialConfusionTemplates : List (List Char) :=
  [cl "I\x27m not sure I understand. Can you explain what this is about?",
   cl "Sorry, I didn\x27t quite get that. What do you need from me?",
   cl "I\x27m a bit confused. Could you clarify?",
   cl "What is this regarding? I don\x27t recall anything about this.",
   cl "I don\x27t understand. Can you tell me more?",
   cl "Could you explain this in simpler terms? I\x27m not following."]

/-- response_templates, show_interest. -/
def showInterestTemplates : List (List Char) :=
  [cl "Oh, that sounds important. What should I do?",
   cl "I see. How do I proceed with this?",
   cl "Okay, I want to make sure I don\x27t miss this. What are the next steps?",
   cl "This seems urgent. Please guide me on what to do.",
   cl "Alright, I\x27m listening. What do you need from me?",
   cl "I understand. Please tell me how to handle this."]

/-- response_templates, request_details. -/
def requestDetailsTemplates : List (List Char) :=
  [cl "Could you provide more details about this?",
   cl "What exactly do you need from me?",
   cl "Can you explain the process step by step?",
   cl "I need more information before I can proceed.",
   cl "What specific details are required?",
   cl "Can you clarify what I need to do exactly?"]

/-- response_templates, feign_technical_difficulty. -/
def feignTechnicalDifficultyTemplates : List (List Char) :=
  [cl "I\x27m trying to open the link but it\x27s not working. Can you send it again?",
   cl "My phone is acting up. Could you tell me what to do step by step?",
   cl "I\x27m not very good with technology. Can you help me understand?",
   cl "The link won\x27t open. Is there another way to do this?",
   cl "I\x27m having trouble with this. Can you explain it differently?",
   cl "My internet is slow. Can you just tell me what information you need?"]

/-- response_templates, gradual_compliance. -/
def gradualComplianceTemplates : List (List Char) :=
  [cl "Okay, I think I understand now. What\x27s the next step?",
   cl "Alright, I\x27m ready to proceed. What do you need?",
   cl "I trust this is legitimate. Please guide me.",
   cl "I don\x27t want any problems. Tell me what to do.",
   cl "Fine, I\x27ll do what you\x27re asking. What exactly do I need to provide?",
   cl "Okay okay, I\x27ll cooperate. Just tell me clearly what you need."]

/-- response_templates, ask_for_credentials. -/
def askForCredentialsTemplates : List (List Char) :=
  [cl "Do you need my account number? Where should I send it?",
   cl "Should I share my bank details with you?",
   cl "What information exactly do you need to verify?",
   cl "I have my details ready. What do you need?",
   cl "Should I provide my UPI ID? Let me know.",
   cl "What account information is required?"]

/-- response_templates, human_confusion (the brace-delimited placeholders of
the source are kept verbatim and substituted by the generator). -/
def humanConfusionTemplates : List (List Char) :=
  [cl "Wait, I\x27m confused again. Can you repeat that?",
   cl "Sorry, I got distracted. What were you saying?",
   cl "Hold on, my \x7bexcuse\x7d is here. Can you give me a moment?",
   cl "I need to find my \x7bitem\x7d. Just a second.",
   cl "Sorry, what was the \x7bdetail\x7d again?",
   cl "I\x27m trying to understand but I\x27m a bit slow with these things."]

/-- response_templates, irrelevant_questions. -/
def irrelevantQuestionsTemplates : List (List Char) :=
  [cl "By the way, what time does your office close?",
   cl "Is this a toll-free number?",
   cl "Do you work on weekends too?",
   cl "How long have you been working there?",
   cl "What department are you from?",
   cl "Can I call back later if I have questions?"]

/-- The excuses vocabulary. -/
def excuses : List (List Char) :=
  [cl "husband", cl "wife", cl "son", cl "daughter", cl "neighbor", cl "phone",
   cl "doorbell"]

/-- The items_to_find vocabulary. -/
def itemsToFind : List (List Char) :=
  [cl "glasses", cl "phone", cl "pen", cl "papers", cl "wallet", cl "purse"]

/-- The detail_types vocabulary. -/
def detailTypes : List (List Char) :=
  [cl "account number", cl "amount", cl "website name", cl "your name",
   cl "company name"]

/-- The strategy_progression table of the constructor; it is assigned but
never consulted anywhere in the source. -/
def strategyProgression : List (Nat × List Char) :=
  [(1, cl "initial_confusion"), (2, cl "show_interest"), (3, cl "request_details"),
   (4, cl "feign_technical_difficulty"), (5, cl "gradual_compliance"),
   (6, cl "ask_for_credentials"), (7, cl "extraction_mode")]

/-- random.choice over a template list, with the draw supplied as a selector
index (reduced modulo the list length, so every selector denotes a member of
a non-empty list). -/
def rchoice (xs : List (List Char)) (k : Nat) : List Char := xs.getD (k % xs.length) []

/-- The random draws consumed by one generate_response call, made explicit:
the 20 percent human-behavior coin, the 30 percent emotional-tone coin, and
one selector per random.choice site that can fire. -/
structure Rand where
  behaviorCoin : Bool
  behaviorSel : Nat
  craftSel : Nat
  excuseSel : Nat
  itemSel : Nat
  detailSel : Nat
  toneCoin : Bool
  toneSel : Nat
deriving DecidableEq

/-- str.replace: substitute every non-overlapping occurrence of target,
scanning left to right (fuel bounds the recursion; the input length is
always enough). -/
def replaceSub : Nat → List Char → List Char → List Char → List Char
  | 0, _, _, s => s
  | _, _, _, [] => []
  | f + 1, target, repl, c :: cs =>
    if !target.isEmpty && target.isPrefixOf (c :: cs) then
      repl ++ replaceSub f target repl ((c :: cs).drop target.length)
    else c :: replaceSub f target repl cs

/-- generate_initial_response: a neutral acknowledgment drawn from a fixed
set, used before scam confirmation. -/
def generateInitialResponse (sel : Nat) : List Char :=
  rchoice
    [cl "Hello, I received your message. Could you tell me more about this?",
     cl "Hi, I\x27m not sure what this is regarding. Can you explain?",
     cl "Hello, I saw your message. What is this about?",
     cl "Hi there, could you provide more information about this?",
     cl "I got your message but I\x27m not sure what it\x27s about. Can you clarify?",
     cl "Hello, what is this in reference to? I don\x27t recall anything."]
    sel

/-- The turn counter of generate_response: the number of messages of the
conversation history whose role is agent. -/
def agentTurnCount (conversationHistory : List Message) : Nat :=
  (conversationHistory.filter (fun m => decide (m.role = Role.agent))).length

/-- The credential keywords of the _determine_stage override. -/
def stageOverrideKeywords : List (List Char) :=
  [cl "otp", cl "cvv", cl "pin", cl "password", cl "account number",
   cl "card number"]

/-- _determine_stage: the credential override fires from turn four onward;
otherwise the stage ladder maps turn 1 to initial_contact, 2 to confusion,
3 to interest, 4 to verification, 5 and 6 to compliance, and everything
else (including turn 0) to extraction. -/
def determineStage (turnCount : Nat) (incomingMessage : List Char) :
    ConversationStage :=
  let ml := lowerL incomingMessage
  if 4 ≤ turnCount ∧ stageOverrideKeywords.any (fun k => containsSub k ml) = true then
    ConversationStage.extraction
  else if turnCount = 1 then ConversationStage.initialContact
  else if turnCount = 2 then ConversationStage.confusion
  else if turnCount = 3 then ConversationStage.interest
  else if turnCount = 4 then ConversationStage.verification
  else if 5 ≤ turnCount ∧ turnCount < 7 then ConversationStage.compliance
  else ConversationStage.extraction

/-- The stage computed by generate_response for an incoming message against
a transcript: _determine_stage applied at the agent-message count. -/
def generateStage (incomingMessage : List Char) (conversationHistory : List Message) :
    ConversationStage :=
  determineStage (agentTurnCount conversationHistory) incomingMessage

/-- _select_strategy: the stage table plus the prioritized content
overrides (link cue from turn three, explicit credential request, provided
payment identifiers, urgency pressure); the dict fallback of the stage
table is unreachable because every stage is mapped. -/
def selectStrategy (stage : ConversationStage) (incomingMessage : List Char)
    (turnCount : Nat) (scamType : List Char) (history : List Message) : List Char :=
  let ml := lowerL incomingMessage
  let base :=
    match stage with
    | ConversationStage.initialContact => cl "initial_confusion"
    | ConversationStage.confusion => cl "initial_confusion"
    | ConversationStage.interest => cl "show_interest"
    | ConversationStage.verification => cl "request_details"
    | ConversationStage.compliance => cl "gradual_compliance"
    | ConversationStage.extraction => cl "ask_for_credentials"
  if (containsSub (cl "http") ml || containsSub (cl "link") ml ||
      containsSub (cl "click") ml) && decide (3 ≤ turnCount) then
    cl "feign_technical_difficulty"
  else if ([cl "otp", cl "code", cl "pin", cl "cvv", cl "password"]).any
      (fun k => containsSub k ml) then
    if stage = ConversationStage.compliance ∨ stage = ConversationStage.extraction then
      cl "ask_for_credentials"
    else cl "request_details"
  else if ([cl "account number", cl "ifsc", cl "upi id", cl "paytm"]).any
      (fun k => containsSub k ml) then
    cl "request_details"
  else if ([cl "urgent", cl "immediately", cl "now", cl "expire", cl "last chance"]).any
      (fun k => containsSub k ml) then
    if stage = ConversationStage.interest then cl "show_interest"
    else if stage = ConversationStage.compliance ∨ stage = ConversationStage.extraction then
      cl "gradual_compliance"
    else base
  else base

/-- _should_add_human_behavior: never before turn three, otherwise the 20
percent coin. -/
def shouldAddHumanBehavior (turnCount : Nat) (coin : Bool) : Bool :=
  if turnCount < 3 then false else coin

/-- _inject_human_behavior: a uniform draw between the two distraction
strategies (the strategy argument is ignored, as in the source). -/
def injectHumanBehavior (_strategy : List Char) (sel : Nat) : List Char :=
  rchoice [cl "human_confusion", cl "irrelevant_questions"] sel

/-- Search for the bank-account digit-run pattern as a boolean (re.search
against \x5cb\x5cd{9,18}\x5cb). -/
def searchBankRun (s : List Char) : Bool := !(bankFindall s).isEmpty

/-- One alternative of the amount cue of _craft_response at index i:
(?:rs\x5c.?|rupees?|inr|\x5c$|₹)\x5cs*\x5cd+ . -/
def amountCueAt (s : List Char) (i : Nat) : Bool :=
  ([cl "rs.", cl "rs", cl "rupees", cl "rupee", cl "inr", cl "$", cl "₹"]).any
    (fun p =>
      p.isPrefixOf (s.drop i) &&
      (match ((s.drop (i + p.length)).dropWhile spaceChar).head? with
       | some c => c.isDigit
       | none => false))

/-- Search for the amount cue of _craft_response. -/
def searchAmountCue (s : List Char) : Bool :=
  (List.range (s.length + 1)).any (amountCueAt s)

/-- _generate_confusion_response. -/
def generateConfusionResponse (incomingMessage : List Char)
    (containsLink containsAmount : Bool) (scamType : List Char) (rnd : Rand) :
    List Char :=
  if containsLink then
    rchoice
      [cl "I got a link from you. What is this for? Is this safe to click?",
       cl "There\x27s a link in your message. What website is this? Should I open it?",
       cl "I see a link but I\x27m not sure what it\x27s for. Can you explain first?"]
      rnd.craftSel
  else if containsAmount then
    rchoice
      [cl "I see you mentioned some amount. Can you explain what this is about?",
       cl "There\x27s a number mentioned. What is this money for? I\x27m confused.",
       cl "You mentioned some rupees. What is this regarding?"]
      rnd.craftSel
  else if scamType = cl "lottery_prize" then
    rchoice
      [cl "I didn\x27t enter any lottery. Are you sure you have the right person?",
       cl "A prize? I don\x27t remember participating in anything. Can you explain?",
       cl "This sounds interesting but I\x27m confused. How did I win?"]
      rnd.craftSel
  else if scamType = cl "banking_kyc" then
    rchoice
      [cl "Is this really from my bank? I don\x27t recall any notification.",
       cl "My account needs updating? I didn\x27t get any email about this.",
       cl "I\x27m not sure if this is legitimate. Can you verify you\x27re from the bank?"]
      rnd.craftSel
  else rchoice initialConfusionTemplates rnd.craftSel

/-- _generate_interest_response. -/
def generateInterestResponse (messageLower : List Char) (hasUrgency : Bool)
    (scamType : List Char) (rnd : Rand) : List Char :=
  if hasUrgency then
    rchoice
      [cl "Oh no, I don\x27t want any problems. What do I need to do to fix this?",
       cl "This sounds urgent! Please tell me what to do right away.",
       cl "I don\x27t want my account blocked! What should I do?"]
      rnd.craftSel
  else if scamType = cl "lottery_prize" then
    rchoice
      [cl "Really? I won something? That\x27s amazing! How do I claim it?",
       cl "This is wonderful news! What do I need to do to get my prize?",
       cl "I\x27m so excited! Please tell me the steps to claim this."]
      rnd.craftSel
  else if scamType = cl "job_offer" then
    rchoice
      [cl "A job opportunity sounds great! What\x27s the position?",
       cl "I\x27m very interested! Can you tell me more about the work?",
       cl "This could be perfect for me. What are the details?"]
      rnd.craftSel
  else if scamType = cl "upi_payment" then
    rchoice
      [cl "I received money by mistake? I should return it. How do I do that?",
       cl "A wrong payment? I want to do the right thing. What should I do?",
       cl "I don\x27t want someone else\x27s money. Please guide me on returning it."]
      rnd.craftSel
  else rchoice showInterestTemplates rnd.craftSel

/-- _generate_details_request. -/
def generateDetailsRequest (messageLower : List Char) (asksForOtp : Bool)
    (containsAccount containsLink containsPhone : Bool) (rnd : Rand) : List Char :=
  if asksForOtp then
    rchoice
      [cl "You\x27re asking for an OTP. Where will I receive it? What should I do with it?",
       cl "An OTP code? Can you tell me what app or message I should check?",
       cl "I need to find the OTP. Where exactly should I look for it?"]
      rnd.craftSel
  else if containsAccount then
    rchoice
      [cl "I see an account number. Is this where I should send money? Whose account is this?",
       cl "There\x27s an account number here. Can you confirm this is the official account?",
       cl "Is this account number correct? I want to make sure before I transfer anything."]
      rnd.craftSel
  else if containsLink then
    rchoice
      [cl "You sent a link. What website is this? Is this the official site?",
       cl "Before I click, can you tell me what this link is for?",
       cl "I\x27m cautious about links. Can you confirm this is safe?"]
      rnd.craftSel
  else if containsPhone then
    rchoice
      [cl "I see a phone number. Should I call this number? Or send a message?",
       cl "Is this phone number the official contact? I want to verify first.",
       cl "You\x27ve given me a number. What should I do with it?"]
      rnd.craftSel
  else rchoice requestDetailsTemplates rnd.craftSel

/-- _generate_technical_difficulty. -/
def generateTechnicalDifficulty (containsLink : Bool) (rnd : Rand) : List Char :=
  if containsLink then
    rchoice
      [cl "I tried clicking the link but it\x27s not opening. Can you send it again?",
       cl "The link isn\x27t working on my phone. Can you tell me what to do without the link?",
       cl "I\x27m having trouble opening this. Is there another way?",
       cl "My browser says it can\x27t open this page. What should I do?",
       cl "The link won\x27t load. Can you just tell me the website name?"]
      rnd.craftSel
  else rchoice feignTechnicalDifficultyTemplates rnd.craftSel

/-- _generate_compliance_response. -/
def generateComplianceResponse (messageLower : List Char) (asksForOtp : Bool)
    (scamType : List Char) (rnd : Rand) : List Char :=
  if asksForOtp then
    rchoice
      [cl "Okay, I\x27ll share the OTP. Should I send it here or somewhere else?",
       cl "I\x27m ready to give you the code. Where should I send it?",
       cl "I received the OTP. What should I do with it? Type it here?"]
      rnd.craftSel
  else if containsSub (cl "account") messageLower || containsSub (cl "upi") messageLower then
    rchoice
      [cl "I have my account details ready. What exactly do you need?",
       cl "I can provide my bank information. Should I share account number and IFSC?",
       cl "Okay, I\x27m ready to share my details. What do you need first?"]
      rnd.craftSel
  else if containsSub (cl "transfer") messageLower ||
      containsSub (cl "payment") messageLower ||
      containsSub (cl "send") messageLower then
    rchoice
      [cl "I\x27m ready to make the payment. Can you confirm the amount and account?",
       cl "I\x27ll transfer the money. Please give me the exact details.",
       cl "Okay, I\x27ll send it. What\x27s the UPI ID or account number?"]
      rnd.craftSel
  else if scamType = cl "lottery_prize" then
    rchoice
      [cl "I\x27ll pay the processing fee. How much and where should I send it?",
       cl "Okay, I understand I need to pay first. What\x27s the amount?",
       cl "I\x27m ready to claim my prize. What payment do you need?"]
      rnd.craftSel
  else rchoice gradualComplianceTemplates rnd.craftSel

/-- _generate_credential_question. -/
def generateCredentialQuestion (messageLower : List Char) (asksForOtp : Bool)
    (rnd : Rand) : List Char :=
  if asksForOtp then
    rchoice
      [cl "I have the OTP code. Should I share all 6 digits here?",
       cl "The code just arrived. Do you need me to send it to you?",
       cl "I got the verification code. What should I do with it exactly?"]
      rnd.craftSel
  else if containsSub (cl "card") messageLower || containsSub (cl "cvv") messageLower then
    rchoice
      [cl "Do you need my card number? What about the CVV?",
       cl "I have my debit card. What information do you need from it?",
       cl "Should I share my card details? Which numbers do you need?"]
      rnd.craftSel
  else if containsSub (cl "bank") messageLower || containsSub (cl "account") messageLower then
    rchoice
      [cl "I have my bank passbook. What details should I give you?",
       cl "My account number is ready. Do you also need IFSC code?",
       cl "I can provide my banking details. What exactly do you need?"]
      rnd.craftSel
  else rchoice askForCredentialsTemplates rnd.craftSel

/-- _generate_human_confusion: draw a template and substitute its
placeholders from the fixed vocabularies. -/
def generateHumanConfusion (rnd : Rand) : List Char :=
  let t := rchoice humanConfusionTemplates rnd.craftSel
  let t :=
    if containsSub (cl "\x7bexcuse\x7d") t then
      replaceSub t.length (cl "\x7bexcuse\x7d") (rchoice excuses rnd.excuseSel) t
    else t
  let t :=
    if containsSub (cl "\x7bitem\x7d") t then
      replaceSub t.length (cl "\x7bitem\x7d") (rchoice itemsToFind rnd.itemSel) t
    else t
  if containsSub (cl "\x7bdetail\x7d") t then
    replaceSub t.length (cl "\x7bdetail\x7d") (rchoice detailTypes rnd.detailSel) t
  else t

/-- _craft_response: extract the sub-signals of the incoming message and
dispatch on the strategy, falling back to the request_details phrasing set
for any unrecognized strategy. -/
def craftResponse (strategy incomingMessage : List Char) (turnCount : Nat)
    (scamType : List Char) (stage : ConversationStage) (rnd : Rand) : List Char :=
  let ml := lowerL incomingMessage
  let containsLink := searchHttpScheme incomingMessage
  let containsAmount := searchAmountCue ml
  let containsAccount := searchBankRun incomingMessage
  let containsPhone := searchTenDigits incomingMessage
  let asksForOtp :=
    ([cl "otp", cl "code", cl "verification code", cl "pin"]).any
      (fun k => containsSub k ml)
  let hasUrgency :=
    ([cl "urgent", cl "immediately", cl "expire", cl "block", cl "suspend"]).any
      (fun k => containsSub k ml)
  if strategy = cl "initial_confusion" then
    generateConfusionResponse incomingMessage containsLink containsAmount scamType rnd
  else if strategy = cl "show_interest" then
    generateInterestResponse ml hasUrgency scamType rnd
  else if strategy = cl "request_details" then
    generateDetailsRequest ml asksForOtp containsAccount containsLink containsPhone rnd
  else if strategy = cl "feign_technical_difficulty" then
    generateTechnicalDifficulty containsLink rnd
  else if strategy = cl "gradual_compliance" then
    generateComplianceResponse ml asksForOtp scamType rnd
  else if strategy = cl "ask_for_credentials" then
    generateCredentialQuestion ml asksForOtp rnd
  else if strategy = cl "human_confusion" then
    generateHumanConfusion rnd
  else if strategy = cl "irrelevant_questions" then
    rchoice irrelevantQuestionsTemplates rnd.craftSel
  else rchoice requestDetailsTemplates rnd.craftSel

/-- _add_scam_specific_tone: only at the interest and compliance stages, and
only for categories present in the scam_behaviors table, a 30 percent coin
prepends an emotional prefix drawn from the category state. -/
def addScamSpecificTone (response : List Char) (scamType : List Char)
    (stage : ConversationStage) (toneCoin : Bool) (toneSel : Nat) : List Char :=
  if ¬(stage = ConversationStage.interest ∨ stage = ConversationStage.compliance) then
    response
  else
    match lookupBehavior scamType with
    | none => response
    | some cfg =>
      if cfg.emotionalState = cl "excited_but_confused" ∧ toneCoin = true then
        rchoice [cl "Wow! ", cl "Oh my goodness! ", cl "Really? "] toneSel ++ response
      else if cfg.emotionalState = cl "worried_urgent" ∧ toneCoin = true then
        rchoice [cl "Oh no! ", cl "Please help - ", cl "I\x27m worried - "] toneSel ++ response
      else if cfg.emotionalState = cl "cautious_hesitant" ∧ toneCoin = true then
        rchoice [cl "I\x27m not sure but... ", cl "Hmm, ", cl "Let me think... "] toneSel ++ response
      else response

/-- The result of generate_response (the reasoning string of the source is a
formatted presentation of stage, turn and strategy and is not modelled). -/
structure ResponseResult where
  message : List Char
  strategy : List Char
  stage : ConversationStage
deriving DecidableEq

/-- generate_response: compute the agent-message turn count, derive the
stage, select the strategy, optionally inject human behavior, craft the
response and apply the category tone. -/
def generateResponse (incomingMessage : List Char)
    (conversationHistory : List Message) (scamType : List Char) (rnd : Rand) :
    ResponseResult :=
  let turnCount := agentTurnCount conversationHistory
  let stage := determineStage turnCount incomingMessage
  let strategy0 := selectStrategy stage incomingMessage turnCount scamType conversationHistory
  let strategy :=
    if shouldAddHumanBehavior turnCount rnd.behaviorCoin then
      injectHumanBehavior strategy0 rnd.behaviorSel
    else strategy0
  let response := craftResponse strategy incomingMessage turnCount scamType stage rnd
  let response := addScamSpecificTone response scamType stage rnd.toneCoin rnd.toneSel
  { message := response, strategy := strategy, stage := stage }

end AgentEngine

example :
    AgentEngine.determineStage 1 (cl "hello") = AgentEngine.ConversationStage.initialContact := by
  decide
example :
    AgentEngine.determineStage 0 (cl "hello") = AgentEngine.ConversationStage.extraction := by
  decide
example :
    AgentEngine.determineStage 5 (cl "send the OTP now") =
      AgentEngine.ConversationStage.extraction := by decide
example :
    AgentEngine.generateHumanConfusion
      { behaviorCoin := false, behaviorSel := 0, craftSel := 2, excuseSel := 0,
        itemSel := 0, detailSel := 0, toneCoin := false, toneSel := 0 } =
      cl "Hold on, my husband is here. Can you give me a moment?" := by decide

/-- The distinct credential keywords collectively referenced by the last
three scammer-authored messages of the history.  This follows the words of
the specification claim, for comparison with the code, which slices the
last three messages of any role before filtering by role and sums
per-message hit counts instead of counting distinct keywords. -/
def claimDistinctCredCount (history : List Message) : Nat :=
  (ScamDetector.credentialRequests.filter
    (fun k =>
      (lastN 3 (history.filter (fun m => decide (m.role = Role.scammer)))).any
        (fun m => containsSub k (lowerL m.content)))).length

/-- True when the list is empty or ends with a non-word character: the
word-boundary context to the left of a digit run that follows the list. -/
def lastNonWordB (a : List Char) : Bool :=
  match a.getLast? with
  | none => true
  | some c => !wordChar c

/-- A selector-chosen template is always a member of a non-empty template
list. -/
theorem rchoice_mem (xs : List (List Char)) (k : Nat) (h : xs ≠ []) :
    AgentEngine.rchoice xs k ∈ xs := by
  have hlt : k % xs.length < xs.length := Nat.mod_lt _ (List.length_pos.mpr h)
  unfold AgentEngine.rchoice
  rw [List.getD_eq_getElem _ _ hlt]
  exact List.getElem_mem hlt

/-- C2: for every message and conversation history, the confidence returned
by ScamDetector.analyze lies in the unit interval (at most 100 centi-points,
and non-negative because it is a natural number), and the scam verdict holds
exactly when the returned confidence reaches the 0.30 threshold (30
centi-points). -/
theorem analyze_confidence_bounds_and_threshold (message : List Char)
    (history : List Message) :
    (ScamDetector.analyze message history).confidence ≤ 100 ∧
      ((ScamDetector.analyze message history).isScam = true ↔
        30 ≤ (ScamDetector.analyze message history).confidence) :=
  ⟨Nat.min_le_right _ _, decide_eq_true_iff⟩

/-- C6: whenever the turn count is at least four and the message contains
one of the credential-request keywords (one-time code, PIN, CVV, password,
account number or card number), the stage returned by _determine_stage is
extraction, regardless of the turn-derived default. -/
theorem determineStage_credential_override (turnCount : Nat) (msg : List Char)
    (h4 : 4 ≤ turnCount)
    (hk : AgentEngine.stageOverrideKeywords.any
      (fun k => containsSub k (lowerL msg)) = true) :
    AgentEngine.determineStage turnCount msg =
      AgentEngine.ConversationStage.extraction := by
  unfold AgentEngine.determineStage
  rw [if_pos ⟨h4, hk⟩]

/-- Witness for C6 at turn five with an explicit OTP request. -/
theorem determineStage_credential_override_witness :
    (4 ≤ 5 ∧
      AgentEngine.stageOverrideKeywords.any
        (fun k => containsSub k (lowerL (cl "give otp now"))) = true) ∧
    AgentEngine.determineStage 5 (cl "give otp now") =
      AgentEngine.ConversationStage.extraction :=
  ⟨⟨by decide, by decide⟩,
    determineStage_credential_override 5 (cl "give otp now") (by decide) (by decide)⟩

/-- C7: the intelligence quality score never exceeds 100, and it is
monotonically non-decreasing in the deduplicated finding counts of each of
the seven weighted kinds. -/
theorem qualityScore_monotone_and_capped :
    (∀ i : IntelligenceExtractor.Intelligence,
      IntelligenceExtractor.calculateQualityScore i ≤ 100) ∧
    (∀ i j : IntelligenceExtractor.Intelligence,
      i.bankAccounts.length ≤ j.bankAccounts.length →
      i.upiIds.length ≤ j.upiIds.length →
      i.ifscCodes.length ≤ j.ifscCodes.length →
      i.phoneNumbers.length ≤ j.phoneNumbers.length →
      i.phishingUrls.length ≤ j.phishingUrls.length →
      i.emailAddresses.length ≤ j.emailAddresses.length →
      i.amountsMentioned.length ≤ j.amountsMentioned.length →
      IntelligenceExtractor.calculateQualityScore i ≤
        IntelligenceExtractor.calculateQualityScore j) := by
  constructor
  · intro i
    exact Nat.min_le_right _ _
  · intro i j h1 h2 h3 h4 h5 h6 h7
    unfold IntelligenceExtractor.calculateQualityScore
    omega

/-- Witness for C7: the empty transcript against a transcript with one
bank-account finding. -/
theorem qualityScore_monotone_and_capped_witness :
    ((IntelligenceExtractor.extract []).intelligence.bankAccounts.length ≤
        (IntelligenceExtractor.extract
          [{ role := Role.scammer, content := cl "acct 123456789012" }]).intelligence.bankAccounts.length) ∧
    IntelligenceExtractor.calculateQualityScore
        (IntelligenceExtractor.extract []).intelligence ≤
      IntelligenceExtractor.calculateQualityScore
        (IntelligenceExtractor.extract
          [{ role := Role.scammer, content := cl "acct 123456789012" }]).intelligence :=
  ⟨by decide,
    qualityScore_monotone_and_capped.2 _ _ (by decide) (by decide) (by decide)
      (by decide) (by decide) (by decide) (by decide)⟩

/-- C10: the indicator list of ScamDetector.analyze is non-empty exactly
when the returned confidence is positive; in particular a positive verdict
always comes with at least one explaining indicator. -/
theorem analyze_indicators_iff_confidence_pos (message : List Char)
    (history : List Message) :
    (ScamDetector.analyze message history).indicators ≠ [] ↔
      0 < (ScamDetector.analyze message history).confidence := by
  rw [← List.length_pos]
  simp only [ScamDetector.analyze, List.length_append, List.length_map,
    apply_ite List.length, List.length_singleton, List.length_nil]
  split_ifs <;> omega

/-- C1 counterexample: at the first scammer turn of a scam-confirmed
conversation (a transcript holding exactly one scammer message and no agent
message, with a keyword-free message), the engine returns the extraction
stage, not initial_contact: the turn clock of generate_response counts
agent messages, not scammer messages, and a count of zero falls into the
extraction fallback of the stage ladder. -/
theorem stageSequence_counterexample :
    (([{ role := Role.scammer, content := cl "hello" }] : List Message).filter
        (fun m => decide (m.role = Role.scammer))).length = 1 ∧
    AgentEngine.stageOverrideKeywords.any
      (fun k => containsSub k (lowerL (cl "hello"))) = false ∧
    AgentEngine.generateStage (cl "hello")
        [{ role := Role.scammer, content := cl "hello" }] =
      AgentEngine.ConversationStage.extraction ∧
    AgentEngine.generateStage (cl "hello")
        [{ role := Role.scammer, content := cl "hello" }] ≠
      AgentEngine.ConversationStage.initialContact := by decide

/-- C1 (amended): with the turn number read as the count of agent messages
in the transcript at call time (the clock generate_response actually uses),
a keyword-free message yields the stage sequence initial_contact,
confusion, interest, verification, compliance, compliance, extraction,
extraction for turn counts one through eight; the count zero seen on the
first scam-confirmed call of an alternating transcript falls into the
extraction fallback. -/
theorem stageSequence_amended (msg : List Char)
    (hk : AgentEngine.stageOverrideKeywords.any
      (fun k => containsSub k (lowerL msg)) = false) :
    AgentEngine.determineStage 1 msg = AgentEngine.ConversationStage.initialContact ∧
    AgentEngine.determineStage 2 msg = AgentEngine.ConversationStage.confusion ∧
    AgentEngine.determineStage 3 msg = AgentEngine.ConversationStage.interest ∧
    AgentEngine.determineStage 4 msg = AgentEngine.ConversationStage.verification ∧
    AgentEngine.determineStage 5 msg = AgentEngine.ConversationStage.compliance ∧
    AgentEngine.determineStage 6 msg = AgentEngine.ConversationStage.compliance ∧
    AgentEngine.determineStage 7 msg = AgentEngine.ConversationStage.extraction ∧
    AgentEngine.determineStage 8 msg = AgentEngine.ConversationStage.extraction ∧
    AgentEngine.determineStage 0 msg = AgentEngine.ConversationStage.extraction ∧
    (∀ history,
      AgentEngine.generateStage msg history =
        AgentEngine.determineStage (AgentEngine.agentTurnCount history) msg) := by
  refine ⟨?_, ?_, ?_, ?_, ?_, ?_, ?_, ?_, ?_, fun _ => rfl⟩ <;>
    simp [AgentEngine.determineStage, hk]

/-- Witness for C1 (amended) at the keyword-free message hello. -/
theorem stageSequence_amended_witness :
    (AgentEngine.stageOverrideKeywords.any
      (fun k => containsSub k (lowerL (cl "hello"))) = false) ∧
    (AgentEngine.determineStage 1 (cl "hello") = AgentEngine.ConversationStage.initialContact ∧
     AgentEngine.determineStage 2 (cl "hello") = AgentEngine.ConversationStage.confusion ∧
     AgentEngine.determineStage 3 (cl "hello") = AgentEngine.ConversationStage.interest ∧
     AgentEngine.determineStage 4 (cl "hello") = AgentEngine.ConversationStage.verification ∧
     AgentEngine.determineStage 5 (cl "hello") = AgentEngine.ConversationStage.compliance ∧
     AgentEngine.determineStage 6 (cl "hello") = AgentEngine.ConversationStage.compliance ∧
     AgentEngine.determineStage 7 (cl "hello") = AgentEngine.ConversationStage.extraction ∧
     AgentEngine.determineStage 8 (cl "hello") = AgentEngine.ConversationStage.extraction ∧
     AgentEngine.determineStage 0 (cl "hello") = AgentEngine.ConversationStage.extraction ∧
     (∀ history,
       AgentEngine.generateStage (cl "hello") history =
         AgentEngine.determineStage (AgentEngine.agentTurnCount history) (cl "hello"))) :=
  ⟨by decide, stageSequence_amended (cl "hello") (by decide)⟩

/-- C5 counterexample: two scammer messages that both mention only the
credential keyword otp make the progressive-harvesting indicator fire (the
code sums per-message hits, one plus one), although only one distinct
credential keyword is referenced, so the claimed at-least-two-distinct
condition does not hold. -/
theorem progressiveHarvesting_counterexample :
    ScamDetector.Indicator.progressiveHarvesting ∈
      (ScamDetector.analyze (cl "x")
        [{ role := Role.scammer, content := cl "send otp" },
         { role := Role.scammer, content := cl "otp again" }]).indicators ∧
    claimDistinctCredCount
        [{ role := Role.scammer, content := cl "send otp" },
         { role := Role.scammer, content := cl "otp again" }] = 1 := by decide

/-- C5 (amended): analyze adds the flat progressive-harvesting contribution
(25 centi-points, with its indicator) exactly when the history has more
than one message and the scammer-authored messages among the last three
messages of the history carry at least two credential-keyword hits in
total, each message contributing the number of credential keywords it
contains (the same keyword in two messages counts twice). -/
theorem progressiveHarvesting_amended (message : List Char)
    (history : List Message) :
    (ScamDetector.Indicator.progressiveHarvesting ∈
        (ScamDetector.analyze message history).indicators) ↔
      (1 < history.length ∧ 2 ≤ ScamDetector.credProgressionCount history) := by
  have hite : ∀ (b : Prop) (inst : Decidable b) (x : ScamDetector.Indicator),
      (ScamDetector.Indicator.progressiveHarvesting ∈ (if b then [x] else [])) ↔
        (b ∧ ScamDetector.Indicator.progressiveHarvesting = x) := by
    intro b inst x
    split <;> simp_all
  simp [ScamDetector.analyze, List.mem_append, List.mem_map, hite,
    Bool.and_eq_true, decide_eq_true_eq]

/-- C8 counterexample: for the category crypto_scam, which has no entry in
the behavior tables, the full response path does not fail but renders an
initial_confusion phrasing, not a member of the request_details phrasing
set, so the claimed fallback to request_details does not hold for every
unconfigured category. -/
theorem invalidCategory_counterexample :
    AgentEngine.lookupBehavior (cl "crypto_scam") = none ∧
    ¬((AgentEngine.generateResponse (cl "hello")
        [{ role := Role.scammer, content := cl "hello" },
         { role := Role.agent, content := cl "ok" },
         { role := Role.scammer, content := cl "hello" }]
        (cl "crypto_scam")
        { behaviorCoin := false, behaviorSel := 0, craftSel := 0, excuseSel := 0,
          itemSel := 0, detailSel := 0, toneCoin := false, toneSel := 0 }).message ∈
      AgentEngine.requestDetailsTemplates) := by decide

/-- C8 (amended): response generation never fails on a category with no
configured behavior entry: the tone pass leaves the crafted text unchanged
for any such category, and the request_details fallback of _craft_response
is reached exactly by unrecognized strategies, for which the rendered text
is always a member of the generic request_details phrasing set; an
unconfigured category alone renders through the strategy branches. -/
theorem invalidCategory_amended (scamType : List Char)
    (hb : AgentEngine.lookupBehavior scamType = none) :
    (∀ response stage toneCoin toneSel,
      AgentEngine.addScamSpecificTone response scamType stage toneCoin toneSel =
        response) ∧
    (∀ strategy msg turnCount stage rnd,
      strategy ∉
          [cl "initial_confusion", cl "show_interest", cl "request_details",
           cl "feign_technical_difficulty", cl "gradual_compliance",
           cl "ask_for_credentials", cl "human_confusion",
           cl "irrelevant_questions"] →
      AgentEngine.craftResponse strategy msg turnCount scamType stage rnd ∈
        AgentEngine.requestDetailsTemplates) := by
  constructor
  · intro response stage toneCoin toneSel
    unfold AgentEngine.addScamSpecificTone
    rw [hb]
    split <;> rfl
  · intro strategy msg turnCount stage rnd hs
    simp only [List.mem_cons, List.not_mem_nil, or_false, not_or] at hs
    obtain ⟨h1, h2, h3, h4, h5, h6, h7, h8⟩ := hs
    unfold AgentEngine.craftResponse
    rw [if_neg h1, if_neg h2, if_neg h3, if_neg h4, if_neg h5, if_neg h6,
      if_neg h7, if_neg h8]
    exact rchoice_mem _ _ (by decide)

/-- Witness for C8 (amended) at the unconfigured category crypto_scam. -/
theorem invalidCategory_amended_witness :
    AgentEngine.lookupBehavior (cl "crypto_scam") = none ∧
    ((∀ response stage toneCoin toneSel,
       AgentEngine.addScamSpecificTone response (cl "crypto_scam") stage toneCoin
           toneSel = response) ∧
     (∀ strategy msg turnCount stage rnd,
       strategy ∉
           [cl "initial_confusion", cl "show_interest", cl "request_details",
            cl "feign_technical_difficulty", cl "gradual_compliance",
            cl "ask_for_credentials", cl "human_confusion",
            cl "irrelevant_questions"] →
       AgentEngine.craftResponse strategy msg turnCount (cl "crypto_scam") stage
           rnd ∈
         AgentEngine.requestDetailsTemplates)) :=
  ⟨by decide, invalidCategory_amended (cl "crypto_scam") (by decide)⟩

/-- C3 counterexample: on the scammer message holding the aadhar-format
number, the masked field retains only the last four digits, but the
provenance field extracted_from of the same finding is the raw message and
so exposes the full number. -/
theorem aadharMasking_counterexample :
    ((IntelligenceExtractor.extract
        [{ role := Role.scammer, content := cl "1234 5678 9012" }]).intelligence.aadharNumbers.map
      (fun f => f.aadharMasked) = [cl "XXXX XXXX 9012"]) ∧
    ((IntelligenceExtractor.extract
        [{ role := Role.scammer, content := cl "1234 5678 9012" }]).intelligence.aadharNumbers.map
      (fun f => f.extractedFrom) = [cl "1234 5678 9012"]) ∧
    containsSub (cl "1234 5678 9012") (cl "1234 5678 9012") = true := by decide

/-- C3 (amended): every aadhar finding of extract stores as its value only
the fixed mask followed by the last four characters of the matched number,
and stores as its provenance the bounded excerpt of the source message,
which may contain the full number. -/
theorem aadharMasking_amended (history : List Message)
    (f : IntelligenceExtractor.AadharFinding)
    (hf : f ∈ (IntelligenceExtractor.extract history).intelligence.aadharNumbers) :
    ∃ msg ∈ IntelligenceExtractor.scammerContents history,
      ∃ m ∈ aadharFindall msg,
        f.aadharMasked = cl "XXXX XXXX " ++ m.drop (m.length - 4) ∧
        f.extractedFrom = IntelligenceExtractor.provenance msg := by
  have hrw : (IntelligenceExtractor.extract history).intelligence.aadharNumbers =
      (IntelligenceExtractor.scammerContents history).flatMap
        IntelligenceExtractor.msgAadharFindings := rfl
  rw [hrw] at hf
  rw [List.mem_flatMap] at hf
  obtain ⟨msg, hmsg, hfm⟩ := hf
  unfold IntelligenceExtractor.msgAadharFindings at hfm
  rw [List.mem_map] at hfm
  obtain ⟨m, hm, hfd⟩ := hfm
  exact ⟨msg, hmsg, m, hm, by rw [← hfd], by rw [← hfd]⟩

/-- Witness for C3 (amended) at the aadhar-format input. -/
theorem aadharMasking_amended_witness :
    ({ aadharMasked := cl "XXXX XXXX 9012",
       extractedFrom := cl "1234 5678 9012" } : IntelligenceExtractor.AadharFinding) ∈
      (IntelligenceExtractor.extract
        [{ role := Role.scammer, content := cl "1234 5678 9012" }]).intelligence.aadharNumbers ∧
    (∃ msg ∈ IntelligenceExtractor.scammerContents
        [{ role := Role.scammer, content := cl "1234 5678 9012" }],
      ∃ m ∈ aadharFindall msg,
        ({ aadharMasked := cl "XXXX XXXX 9012",
           extractedFrom := cl "1234 5678 9012" } : IntelligenceExtractor.AadharFinding).aadharMasked =
            cl "XXXX XXXX " ++ m.drop (m.length - 4) ∧
          ({ aadharMasked := cl "XXXX XXXX 9012",
             extractedFrom := cl "1234 5678 9012" } : IntelligenceExtractor.AadharFinding).extractedFrom =
            IntelligenceExtractor.provenance msg) :=
  ⟨by decide, aadharMasking_amended _ _ (by decide)⟩

/-- C4: the paytm-handle half of the claim holds (a UPI finding and no
email finding), but on the ordinary address user at gmail dot com the
extractor also registers a UPI finding for the truncated token, because the
UPI pattern stops its domain at the first dot and the dot-free check of the
filter can then never reject: the disambiguation the code comments intend
is defeated, while the email finding is produced as claimed. -/
theorem upiEmailDisambiguation_bug :
    ((IntelligenceExtractor.extract
        [{ role := Role.scammer, content := cl "9876543210@paytm" }]).intelligence.upiIds.map
      (fun f => f.upiId) = [cl "9876543210@paytm"]) ∧
    ((IntelligenceExtractor.extract
        [{ role := Role.scammer, content := cl "9876543210@paytm" }]).intelligence.emailAddresses = []) ∧
    ((IntelligenceExtractor.extract
        [{ role := Role.scammer, content := cl "user@gmail.com" }]).intelligence.emailAddresses.map
      (fun f => f.email) = [cl "user@gmail.com"]) ∧
    ((IntelligenceExtractor.extract
        [{ role := Role.scammer, content := cl "user@gmail.com" }]).intelligence.upiIds.map
      (fun f => f.upiId) = [cl "user@gmail"]) := by decide

/-- A digit is a word character. -/
theorem digit_word {c : Char} (h : c.isDigit = true) : wordChar c = true := by
  simp [wordChar, h]

/-- A digit is not a regex whitespace character. -/
theorem digit_not_space {c : Char} (h : c.isDigit = true) : spaceChar c = false := by
  cases hs : spaceChar c
  · rfl
  · exfalso
    simp only [spaceChar, Bool.or_eq_true, beq_iff_eq] at hs
    rcases hs with ((((h1 | h1) | h1) | h1) | h1) | h1 <;> subst h1 <;> simp at h

/-- A non-word character is not a digit. -/
theorem nonWord_not_digit {c : Char} (h : wordChar c = false) : c.isDigit = false := by
  cases hd : c.isDigit
  · rfl
  · rw [digit_word hd] at h
    cases h

/-- Dropping fewer elements than the length preserves the last element. -/
theorem getLast?_drop_of_lt (a : List α) (n : Nat) (h : n < a.length) :
    (a.drop n).getLast? = a.getLast? := by
  induction a generalizing n with
  | nil => simp at h
  | cons c t ih =>
    cases n with
    | zero => rfl
    | succ m =>
      have hm : m < t.length := by simpa using h
      rcases t with _ | ⟨x, xs⟩
      · simp at hm
      · rw [List.drop_succ_cons, ih m hm, List.getLast?_cons_cons]

/-- The tail of a non-empty list keeps the non-word last-character
property. -/
theorem lastNonWordB_tail {c : Char} {t : List Char} (h : lastNonWordB (c :: t) = true)
    (ht : t ≠ []) : lastNonWordB t = true := by
  unfold lastNonWordB at h ⊢
  have : (c :: t).getLast? = t.getLast? := by
    rcases t with _ | ⟨x, xs⟩
    · exact absurd rfl ht
    · rw [List.getLast?_cons_cons]
  rw [this] at h
  exact h

/-- A singleton with the non-word last-character property has a non-word
head. -/
theorem lastNonWordB_single {c : Char} (h : lastNonWordB [c] = true) :
    wordChar c = false := by
  unfold lastNonWordB at h
  simp only [List.getLast?_singleton] at h
  simpa using h

/-- A non-empty suffix keeps the non-word last-character property. -/
theorem lastNonWordB_drop {a : List Char} {n : Nat} (h : lastNonWordB a = true)
    (hn : n < a.length) : lastNonWordB (a.drop n) = true := by
  unfold lastNonWordB at h ⊢
  rw [getLast?_drop_of_lt a n hn]
  exact h

/-- Unfolding step of the scanner at a position where the matcher fires. -/
theorem reScan_cons_match (m : Bool → List Char → Option Nat) (f : Nat)
    (prevW : Bool) (c : Char) (cs : List Char) (n : Nat)
    (h : m prevW (c :: cs) = some (n + 1)) :
    reScan m (f + 1) prevW (c :: cs) =
      (c :: cs.take n) ::
        reScan m f (wordCharO (charAtOpt (c :: cs) n)) (cs.drop n) := by
  rw [reScan, h]

/-- Unfolding step of the scanner at a position where the matcher does not
fire. -/
theorem reScan_cons_nomatch (m : Bool → List Char → Option Nat) (f : Nat)
    (prevW : Bool) (c : Char) (cs : List Char)
    (h : m prevW (c :: cs) = none) :
    reScan m (f + 1) prevW (c :: cs) = reScan m f (wordChar c) cs := by
  rw [reScan, h]

/-- The maximal digit prefix of a digit run followed by a non-word context
is the run itself. -/
theorem takeWhile_digit_run {r b : List Char} (hdig : r.all Char.isDigit = true)
    (hb : nonWordNext b = true) : (r ++ b).takeWhile Char.isDigit = r := by
  induction r with
  | nil =>
    cases b with
    | nil => rfl
    | cons c cs =>
      unfold nonWordNext at hb
      simp only [List.head?_cons] at hb
      have : c.isDigit = false := nonWord_not_digit (by simpa using hb)
      simp [List.takeWhile_cons, this]
  | cons c t ih =>
    simp only [List.all_cons, Bool.and_eq_true] at hdig
    simp [List.takeWhile_cons, hdig.1, ih hdig.2]

/-- The bank matcher fires on a twelve-digit run in a non-word context and
consumes exactly the run. -/
theorem bankM_at_run {r b : List Char} (hlen : r.length = 12)
    (hdig : r.all Char.isDigit = true) (hb : nonWordNext b = true) :
    bankM false (r ++ b) = some 12 := by
  have hdrop : (r ++ b).drop 12 = b := by
    rw [← hlen, List.drop_left]
  simp [bankM, takeWhile_digit_run hdig hb, hlen, hdrop, hb]

/-- A bank-matcher match starting strictly before a protected digit run
stays strictly inside the prefix: the matched digits cannot reach the run
because the character just before the run is non-word, and the match cannot
end exactly at the run boundary because a digit follows. -/
theorem bankM_bound {a r b : List Char} {prevW : Bool} {n : Nat}
    (ha : a ≠ []) (hlast : lastNonWordB a = true)
    (h : bankM prevW (a ++ r ++ b) = some n) : 1 ≤ n ∧ n < a.length := by
  simp only [bankM] at h
  split at h
  case isFalse => cases h
  case isTrue hcond =>
    injection h with hn
    subst hn
    simp only [Bool.and_eq_true, decide_eq_true_eq] at hcond
    obtain ⟨⟨⟨-, h9⟩, -⟩, -⟩ := hcond
    refine ⟨by omega, ?_⟩
    by_contra hge
    push_neg at hge
    have hpre1 : (a ++ r ++ b).takeWhile Char.isDigit <+: a ++ r ++ b :=
      List.takeWhile_prefix _
    have hpre2 : a <+: a ++ r ++ b :=
      (List.prefix_append a r).trans (List.prefix_append (a ++ r) b)
    have hsub : a <+: (a ++ r ++ b).takeWhile Char.isDigit :=
      List.prefix_of_prefix_length_le hpre2 hpre1 hge
    have hmem : a.getLast ha ∈ (a ++ r ++ b).takeWhile Char.isDigit :=
      hsub.mem (List.getLast_mem ha)
    have hdigLast : (a.getLast ha).isDigit = true := List.mem_takeWhile_imp hmem
    unfold lastNonWordB at hlast
    rw [List.getLast?_eq_getLast a ha] at hlast
    simp only [Bool.not_eq_true'] at hlast
    rw [nonWord_not_digit hlast] at hdigLast
    cases hdigLast

/-- Generic scanning lemma: a matcher that fires on the protected
twelve-digit run with exactly the run, and whose matches strictly inside
the prefix never reach the run, lets the findall scan emit the run, for any
prefix that ends in a non-word character (or is empty). -/
theorem reScan_mem_run (M : Bool → List Char → Option Nat) (r b : List Char)
    (hlen : r.length = 12)
    (hrun : M false (r ++ b) = some 12)
    (hbound : ∀ (prevW : Bool) (a' : List Char) (n : Nat), a' ≠ [] →
      lastNonWordB a' = true → M prevW (a' ++ r ++ b) = some n →
      1 ≤ n ∧ n < a'.length) :
    ∀ (fuel : Nat) (a : List Char) (prevW : Bool),
      (a ++ r ++ b).length ≤ fuel →
      (a = [] → prevW = false) →
      lastNonWordB a = true →
      r ∈ reScan M fuel prevW (a ++ r ++ b) := by
  intro fuel
  induction fuel with
  | zero =>
    intro a prevW hf h0 hl
    exfalso
    simp only [List.length_append, Nat.le_zero] at hf
    omega
  | succ f ih =>
    intro a prevW hf h0 hl
    cases a with
    | nil =>
      have hp : prevW = false := h0 rfl
      subst hp
      rcases r with _ | ⟨c, cs⟩
      · simp at hlen
      · have hm' : M false (c :: (cs ++ b)) = some (11 + 1) := by
          rw [← List.cons_append]
          exact hrun
        rw [show (([] : List Char) ++ (c :: cs) ++ b) = c :: (cs ++ b) by simp]
        rw [reScan_cons_match M f false c (cs ++ b) 11 hm']
        have hcs : cs.length = 11 := by simpa using hlen
        have htake : (cs ++ b).take 11 = cs := by
          rw [← hcs, List.take_left]
        rw [htake]
        exact List.mem_cons_self _ _
    | cons c t =>
      have hs : ((c :: t) ++ r ++ b) = c :: (t ++ r ++ b) := by simp
      rcases hm : M prevW ((c :: t) ++ r ++ b) with _ | n
      · rw [hs] at hm ⊢
        rw [reScan_cons_nomatch M f prevW c (t ++ r ++ b) hm]
        by_cases htn : t = []
        · subst htn
          apply ih [] (wordChar c)
          · simp only [List.length_append, List.length_cons, List.length_nil] at hf ⊢
            omega
          · intro _
            exact lastNonWordB_single hl
          · rfl
        · apply ih t (wordChar c)
          · simp only [List.length_append, List.length_cons] at hf ⊢
            omega
          · intro h
            exact absurd h htn
          · exact lastNonWordB_tail hl htn
      · obtain ⟨h1n, hlt⟩ := hbound prevW (c :: t) n (by simp) hl hm
        obtain ⟨k, rfl⟩ : ∃ k, n = k + 1 := ⟨n - 1, by omega⟩
        rw [hs] at hm ⊢
        rw [reScan_cons_match M f prevW c (t ++ r ++ b) k hm]
        refine List.mem_cons_of_mem _ ?_
        have hkt : k < t.length := by
          simp only [List.length_cons] at hlt
          omega
        have hdropeq : (t ++ r ++ b).drop k = (t.drop k) ++ r ++ b := by
          rw [List.append_assoc, List.drop_append_of_le_length (Nat.le_of_lt hkt),
            List.append_assoc]
        rw [hdropeq]
        have htn : t ≠ [] := by
          intro h
          rw [h] at hkt
          simp at hkt
        apply ih (t.drop k) _
        · simp only [List.length_append, List.length_cons, List.length_drop] at hf ⊢
          omega
        · intro h
          rw [List.drop_eq_nil_iff] at h
          omega
        · exact lastNonWordB_drop (lastNonWordB_tail hl htn) hkt

/-- A regex whitespace character is not a digit. -/
theorem space_not_digit {c : Char} (h : spaceChar c = true) : c.isDigit = false := by
  cases hd : c.isDigit
  · rfl
  · rw [digit_not_space hd] at h
    cases h

/-- The aadhar tail matcher characterized: it consumes four digits followed
by a word boundary. -/
theorem aadharEnd_some {u : List Char} {k : Nat} (h : aadharEnd u = some k) :
    k = 4 ∧ ∃ g rest, u = g ++ rest ∧ g.length = 4 ∧ g.all Char.isDigit = true ∧
      nonWordNext rest = true := by
  unfold aadharEnd at h
  split at h
  case isTrue hc =>
    injection h with hk
    simp only [Bool.and_eq_true, allDigitsTake, beq_iff_eq] at hc
    obtain ⟨⟨hl4, hall⟩, hnw⟩ := hc
    exact ⟨hk.symm, u.take 4, u.drop 4, (List.take_append_drop 4 u).symm, hl4, hall, hnw⟩
  case isFalse => cases h

/-- The aadhar tail matcher rejects an input that starts with a whitespace
character. -/
theorem aadharEnd_spaceHead {c : Char} {cs : List Char} (hc : spaceChar c = true) :
    aadharEnd (c :: cs) = none := by
  have hfalse : ¬(allDigitsTake 4 (c :: cs) &&
      nonWordNext ((c :: cs).drop 4)) = true := by
    simp [allDigitsTake, show (c :: cs).take 4 = c :: cs.take 3 from rfl,
      space_not_digit hc]
  unfold aadharEnd
  exact if_neg hfalse

/-- The aadhar middle matcher rejects an input that starts with a
whitespace character. -/
theorem aadharMid_spaceHead {c : Char} {cs : List Char} (hc : spaceChar c = true) :
    aadharMid (c :: cs) = none := by
  have hfalse : ¬(allDigitsTake 4 (c :: cs)) = true := by
    simp [allDigitsTake, show (c :: cs).take 4 = c :: cs.take 3 from rfl,
      space_not_digit hc]
  unfold aadharMid
  exact if_neg hfalse

/-- The aadhar middle matcher characterized: it consumes eight or nine
characters and leaves a word boundary behind. -/
theorem aadharMid_some {t : List Char} {k : Nat} (h : aadharMid t = some k) :
    ∃ m rest, t = m ++ rest ∧ m.length = k ∧ 8 ≤ k ∧ k ≤ 9 ∧
      nonWordNext rest = true := by
  unfold aadharMid at h
  split at h
  case isFalse => cases h
  case isTrue hd4 =>
    simp only [allDigitsTake, Bool.and_eq_true, beq_iff_eq] at hd4
    obtain ⟨hl4, -⟩ := hd4
    split at h
    case h_2 => cases h
    case h_1 c cs heq =>
      split at h
      case isTrue hsp =>
        split at h
        case h_1 m2 heq2 =>
          injection h with hk
          obtain ⟨hm4, g, rest, hcs, hg4, -, hnw⟩ := aadharEnd_some heq2
          subst hm4
          refine ⟨t.take 4 ++ c :: g, rest, ?_, ?_, by omega, by omega, hnw⟩
          · calc t = t.take 4 ++ t.drop 4 := (List.take_append_drop 4 t).symm
              _ = t.take 4 ++ (c :: (g ++ rest)) := by rw [heq, hcs]
              _ = (t.take 4 ++ c :: g) ++ rest := by simp
          · rw [← hk]
            simp [hl4, hg4]
        case h_2 heq2 =>
          rw [aadharEnd_spaceHead hsp] at h
          simp at h
      case isFalse hsp =>
        rw [Option.map_eq_some'] at h
        obtain ⟨m2, heq2, hk⟩ := h
        obtain ⟨hm4, g, rest, hcs, hg4, -, hnw⟩ := aadharEnd_some heq2
        subst hm4
        refine ⟨t.take 4 ++ g, rest, ?_, ?_, by omega, by omega, hnw⟩
        · calc t = t.take 4 ++ t.drop 4 := (List.take_append_drop 4 t).symm
            _ = t.take 4 ++ (g ++ rest) := by rw [heq, hcs]
            _ = (t.take 4 ++ g) ++ rest := by simp
        · rw [← hk]
          simp [hl4, hg4]

/-- The aadhar matcher characterized: a match splits the input into four
leading digits, a middle part, and a remainder that starts at a word
boundary, with a total consumed length between twelve and fourteen. -/
theorem aadharM_some {prevW : Bool} {s : List Char} {n : Nat}
    (h : aadharM prevW s = some n) :
    ∃ g1 mid rest, s = g1 ++ mid ++ rest ∧ g1.length = 4 ∧
      g1.all Char.isDigit = true ∧ 4 + mid.length = n ∧ 12 ≤ n ∧ n ≤ 14 ∧
      nonWordNext rest = true := by
  unfold aadharM at h
  split at h
  case isTrue => cases h
  case isFalse =>
    split at h
    case isFalse => cases h
    case isTrue hd4 =>
      simp only [allDigitsTake, Bool.and_eq_true, beq_iff_eq] at hd4
      obtain ⟨hl4, hall4⟩ := hd4
      split at h
      case h_2 => cases h
      case h_1 c cs heq =>
        split at h
        case isTrue hsp =>
          split at h
          case h_1 m2 heq2 =>
            injection h with hk
            obtain ⟨m, rest, hcs, hmlen, hk8, hk9, hnw⟩ := aadharMid_some heq2
            refine ⟨s.take 4, c :: m, rest, ?_, hl4, hall4, ?_, by omega, by omega, hnw⟩
            · calc s = s.take 4 ++ s.drop 4 := (List.take_append_drop 4 s).symm
                _ = s.take 4 ++ (c :: (m ++ rest)) := by rw [heq, hcs]
                _ = s.take 4 ++ (c :: m) ++ rest := by simp
            · simp only [List.length_cons]
              omega
          case h_2 heq2 =>
            rw [aadharMid_spaceHead hsp] at h
            simp at h
        case isFalse hsp =>
          rw [Option.map_eq_some'] at h
          obtain ⟨m2, heq2, hk⟩ := h
          obtain ⟨m, rest, hcs, hmlen, hk8, hk9, hnw⟩ := aadharMid_some heq2
          refine ⟨s.take 4, m, rest, ?_, hl4, hall4, by omega, by omega, by omega, hnw⟩
          calc s = s.take 4 ++ s.drop 4 := (List.take_append_drop 4 s).symm
            _ = s.take 4 ++ (m ++ rest) := by rw [heq, hcs]
            _ = s.take 4 ++ m ++ rest := by simp

/-- An aadhar-matcher match starting strictly before a protected
twelve-digit run stays strictly inside the prefix: ending at or inside the
run would put a digit right after the match, against its trailing boundary,
and swallowing the whole run would leave a prefix of at most two characters
that sits inside the leading digit group, against the non-word character
that closes the prefix. -/
theorem aadharM_bound {a r b : List Char} {prevW : Bool} {n : Nat}
    (ha : a ≠ []) (hlast : lastNonWordB a = true) (hlen : r.length = 12)
    (hdig : r.all Char.isDigit = true)
    (h : aadharM prevW (a ++ r ++ b) = some n) : 1 ≤ n ∧ n < a.length := by
  obtain ⟨g1, mid, rest, hs, hg1len, hg1dig, hmidlen, h12, h14, hnw⟩ :=
    aadharM_some h
  refine ⟨by omega, ?_⟩
  by_contra hge
  push_neg at hge
  have hrest : (a ++ r ++ b).drop n = rest := by
    rw [hs, show g1 ++ mid ++ rest = (g1 ++ mid) ++ rest by simp,
      List.drop_left' (by simp only [List.length_append]; omega)]
  by_cases hmlt : n - a.length < 12
  · have hdrop : (a ++ r ++ b).drop n = r.drop (n - a.length) ++ b := by
      rw [List.append_assoc, show n = a.length + (n - a.length) by omega,
        List.drop_append, List.drop_append_of_le_length (by omega)]
      rw [show a.length + (n - a.length) - a.length = n - a.length by omega]
    have hne : r.drop (n - a.length) ≠ [] := by
      rw [ne_eq, List.drop_eq_nil_iff]
      omega
    obtain ⟨c, x, hx⟩ := List.exists_cons_of_ne_nil hne
    have hcr : c ∈ r := List.drop_subset _ _ (hx ▸ List.mem_cons_self c x)
    have hcd : c.isDigit = true := by
      rw [List.all_eq_true] at hdig
      exact hdig c hcr
    have hrb : rest = r.drop (n - a.length) ++ b := hrest.symm.trans hdrop
    rw [hrb, hx] at hnw
    simp only [List.cons_append, nonWordNext, List.head?_cons] at hnw
    rw [digit_word hcd] at hnw
    simp at hnw
  · push_neg at hmlt
    have hapre : a <+: (a ++ r ++ b) :=
      (List.prefix_append a r).trans (List.prefix_append (a ++ r) b)
    have hg1pre : g1 <+: (a ++ r ++ b) := by
      rw [hs, List.append_assoc]
      exact List.prefix_append _ _
    have hsub : a <+: g1 :=
      List.prefix_of_prefix_length_le hapre hg1pre (by omega)
    have hmem : a.getLast ha ∈ g1 := hsub.mem (List.getLast_mem ha)
    have hlastdig : (a.getLast ha).isDigit = true := by
      rw [List.all_eq_true] at hg1dig
      exact hg1dig _ hmem
    unfold lastNonWordB at hlast
    rw [List.getLast?_eq_getLast a ha] at hlast
    simp only [Bool.not_eq_true'] at hlast
    rw [nonWord_not_digit hlast] at hlastdig
    cases hlastdig

/-- The aadhar matcher fires on a twelve-digit run in a non-word context
and consumes exactly the run. -/
theorem aadharM_at_run {r b : List Char} (hlen : r.length = 12)
    (hdig : r.all Char.isDigit = true) (hb : nonWordNext b = true) :
    aadharM false (r ++ b) = some 12 := by
  rcases r with _ | ⟨c0, r⟩; · simp at hlen
  rcases r with _ | ⟨c1, r⟩; · simp at hlen
  rcases r with _ | ⟨c2, r⟩; · simp at hlen
  rcases r with _ | ⟨c3, r⟩; · simp at hlen
  rcases r with _ | ⟨c4, r⟩; · simp at hlen
  rcases r with _ | ⟨c5, r⟩; · simp at hlen
  rcases r with _ | ⟨c6, r⟩; · simp at hlen
  rcases r with _ | ⟨c7, r⟩; · simp at hlen
  rcases r with _ | ⟨c8, r⟩; · simp at hlen
  rcases r with _ | ⟨c9, r⟩; · simp at hlen
  rcases r with _ | ⟨c10, r⟩; · simp at hlen
  rcases r with _ | ⟨c11, r⟩; · simp at hlen
  have hr : r = [] := by
    simp only [List.length_cons] at hlen
    rw [← List.length_eq_zero]
    omega
  subst hr
  obtain ⟨h0, h1, h2, h3, h4, h5, h6, h7, h8, h9, h10, h11⟩ :
      c0.isDigit = true ∧ c1.isDigit = true ∧ c2.isDigit = true ∧
      c3.isDigit = true ∧ c4.isDigit = true ∧ c5.isDigit = true ∧
      c6.isDigit = true ∧ c7.isDigit = true ∧ c8.isDigit = true ∧
      c9.isDigit = true ∧ c10.isDigit = true ∧ c11.isDigit = true := by
    simpa using hdig
  simp [aadharM, aadharMid, aadharEnd, allDigitsTake, h0, h1, h2, h3, h4, h5,
    h6, h7, h8, h9, h10, h11, digit_not_space h4, digit_not_space h8, hb]

/-- A boundary-delimited twelve-digit run is always among the bank-account
findall matches of its message. -/
theorem bankFindall_mem_run {a r b : List Char} (hlen : r.length = 12)
    (hdig : r.all Char.isDigit = true) (ha : lastNonWordB a = true)
    (hb : nonWordNext b = true) : r ∈ bankFindall (a ++ r ++ b) :=
  reScan_mem_run bankM r b hlen (bankM_at_run hlen hdig hb)
    (fun _ _ _ ha' hl' h => bankM_bound ha' hl' h)
    (a ++ r ++ b).length a false le_rfl (fun _ => rfl) ha

/-- A boundary-delimited twelve-digit run is always among the aadhar
findall matches of its message. -/
theorem aadharFindall_mem_run {a r b : List Char} (hlen : r.length = 12)
    (hdig : r.all Char.isDigit = true) (ha : lastNonWordB a = true)
    (hb : nonWordNext b = true) : r ∈ aadharFindall (a ++ r ++ b) :=
  reScan_mem_run aadharM r b hlen (aadharM_at_run hlen hdig hb)
    (fun _ _ _ ha' hl' h => aadharM_bound ha' hl' hlen hdig h)
    (a ++ r ++ b).length a false le_rfl (fun _ => rfl) ha

/-- Keeping first occurrences preserves every key that is present and not
yet seen. -/
theorem dedupFirst_key_mem (key : α → List Char) (l : List α)
    (seen : List (List Char)) (v : List Char)
    (hv : ∃ x ∈ l, key x = v) (hs : v ∉ seen) :
    ∃ y ∈ IntelligenceExtractor.dedupFirst key l seen, key y = v := by
  induction l generalizing seen with
  | nil =>
    obtain ⟨x, hx, -⟩ := hv
    cases hx
  | cons x xs ih =>
    obtain ⟨y, hy, hkey⟩ := hv
    unfold IntelligenceExtractor.dedupFirst
    by_cases hxv : key x = v
    · rw [if_neg (by rw [hxv]; exact hs)]
      exact ⟨x, List.mem_cons_self _ _, hxv⟩
    · rcases List.mem_cons.mp hy with rfl | hy'
      · exact absurd hkey hxv
      · by_cases hin : key x ∈ seen
        · rw [if_pos hin]
          exact ih seen ⟨y, hy', hkey⟩ hs
        · rw [if_neg hin]
          obtain ⟨z, hz, hzk⟩ :=
            ih (key x :: seen) ⟨y, hy', hkey⟩
              (by
                intro hvmem
                rcases List.mem_cons.mp hvmem with hv1 | hv2
                · exact hxv hv1.symm
                · exact hs hv2)
          exact ⟨z, List.mem_cons_of_mem _ hz, hzk⟩

/-- C9 counterexample: a run of exactly twelve contiguous digits that is
glued to letters on both sides has no word boundary, so extract produces
neither a bank-account finding nor an aadhar finding for it. -/
theorem twelveDigit_overlap_counterexample :
    (IntelligenceExtractor.extract
        [{ role := Role.scammer,
           content := cl "a123456789012b" }]).intelligence.bankAccounts = [] ∧
    (IntelligenceExtractor.extract
        [{ role := Role.scammer,
           content := cl "a123456789012b" }]).intelligence.aadharNumbers = [] := by
  decide

/-- C9 (amended): for every scammer message of the transcript containing a
run of exactly twelve contiguous digits delimited by word boundaries (the
text before the run is empty or ends in a non-word character, and the text
after it is empty or starts with one), extract reports both a bank-account
finding whose account number is the run and an aadhar finding whose masked
value is the fixed mask plus the last four digits of the same run. -/
theorem twelveDigit_overlap_amended (history : List Message)
    (a r b : List Char)
    (hmem : ({ role := Role.scammer, content := a ++ r ++ b } : Message) ∈ history)
    (hlen : r.length = 12) (hdig : r.all Char.isDigit = true)
    (ha : lastNonWordB a = true) (hb : nonWordNext b = true) :
    (∃ f ∈ (IntelligenceExtractor.extract history).intelligence.bankAccounts,
       f.accountNumber = r) ∧
    (∃ f ∈ (IntelligenceExtractor.extract history).intelligence.aadharNumbers,
       f.aadharMasked = cl "XXXX XXXX " ++ r.drop 8) := by
  have hmsgmem : a ++ r ++ b ∈ IntelligenceExtractor.scammerContents history := by
    unfold IntelligenceExtractor.scammerContents
    exact List.mem_map.mpr
      ⟨_, List.mem_filter.mpr ⟨hmem, rfl⟩, rfl⟩
  constructor
  · have hfind : r ∈ bankFindall (a ++ r ++ b) := bankFindall_mem_run hlen hdig ha hb
    have hbf : ({ accountNumber := r, length := r.length,
                  extractedFrom :=
                    IntelligenceExtractor.provenance (a ++ r ++ b) } :
          IntelligenceExtractor.BankFinding) ∈
        IntelligenceExtractor.msgBankFindings (a ++ r ++ b) := by
      unfold IntelligenceExtractor.msgBankFindings
      refine List.mem_map.mpr ⟨r, List.mem_filter.mpr ⟨hfind, ?_⟩, rfl⟩
      simp [hlen]
    exact dedupFirst_key_mem (fun f => f.accountNumber) _ [] r
      ⟨_, List.mem_flatMap.mpr ⟨a ++ r ++ b, hmsgmem, hbf⟩, rfl⟩ (by simp)
  · have hfind : r ∈ aadharFindall (a ++ r ++ b) := aadharFindall_mem_run hlen hdig ha hb
    refine ⟨{ aadharMasked := cl "XXXX XXXX " ++ r.drop (r.length - 4),
               extractedFrom :=
                 IntelligenceExtractor.provenance (a ++ r ++ b) },
      ?_, ?_⟩
    · show _ ∈ (IntelligenceExtractor.scammerContents history).flatMap
        IntelligenceExtractor.msgAadharFindings
      refine List.mem_flatMap.mpr ⟨a ++ r ++ b, hmsgmem, ?_⟩
      unfold IntelligenceExtractor.msgAadharFindings
      exact List.mem_map.mpr ⟨r, hfind, rfl⟩
    · simp [hlen]

/-- Witness for C9 (amended): a bare twelve-digit message. -/
theorem twelveDigit_overlap_amended_witness :
    ((cl "123456789012").length = 12 ∧
     (cl "123456789012").all Char.isDigit = true ∧
     lastNonWordB [] = true ∧ nonWordNext [] = true) ∧
    ((∃ f ∈ (IntelligenceExtractor.extract
          [{ role := Role.scammer,
             content := [] ++ cl "123456789012" ++ [] }]).intelligence.bankAccounts,
        f.accountNumber = cl "123456789012") ∧
     (∃ f ∈ (IntelligenceExtractor.extract
          [{ role := Role.scammer,
             content := [] ++ cl "123456789012" ++ [] }]).intelligence.aadharNumbers,
        f.aadharMasked = cl "XXXX XXXX " ++ (cl "123456789012").drop 8)) :=
  ⟨⟨by decide, by decide, by decide, by decide⟩,
    twelveDigit_overlap_amended _ [] (cl "123456789012") [] (by decide)
      (by decide) (by decide) (by decide) (by decide)⟩
